import Mathlib

/-!
Verification development for the tiling / parallel-dispatch / result-merge
core of the grass-gis-helpers library.

The Python source orchestrates an external GIS through subprocess calls that
read and mutate process-wide ambient state (the current region, saved
regions, vector maps, the current mapset).  We embed that state in an
explicit `GrassState` record and translate each helper function
(`create_grid`, `reset_region`, `rm_vects`, `run_module_parallel`,
`verify_mapsets`, `check_parallel_warnings`, `patching_vector_results`,
`patching_raster_results`) into a state-passing Lean function.

External commands can fail at runtime; a call into the toolkit is modelled
by `runGrassCmd`, parameterised by a failure oracle `fails : String → Bool`
naming the commands that raise `CalledModuleError`.  A raised Python
exception is an `Except.error` carrying the ambient state at the moment of
the raise, so that frame-effect claims about failing paths are statable.

Coordinates and tile sizes are modelled as exact integers (the source uses
Python floats; the claims under study concern only comparisons, alignment
and bookkeeping, none of which hinge on rounding of non-integral values).
-/

set_option autoImplicit false
set_option maxRecDepth 8000

deriving instance DecidableEq for Except

/-- Absolute value on ℤ, written out so the kernel evaluates it. -/
def iabs (x : ℤ) : ℤ := if x < 0 then -x else x

/-- Maximum on ℤ. -/
def imax (a b : ℤ) : ℤ := if a ≤ b then b else a

/-- Minimum on ℤ. -/
def imin (a b : ℤ) : ℤ := if a ≤ b then a else b

/-- Ceiling division on ℤ (denominator positive in all uses). -/
def iceilDiv (x res : ℤ) : ℤ := -(Int.fdiv (-x) res)

/-- Largest multiple of `res` that is ≤ `x`. -/
def ifloorMult (x res : ℤ) : ℤ := res * Int.fdiv x res

/-- Smallest multiple of `res` that is ≥ `x`. -/
def iceilMult (x res : ℤ) : ℤ := res * iceilDiv x res

/-- An axis-aligned rectangle: the bounds of a region or of a vector feature. -/
structure Rect where
  n : ℤ
  s : ℤ
  w : ℤ
  e : ℤ
deriving DecidableEq

/-- A GRASS region: rectangular bounds plus a north-south and an east-west
resolution.  The "current region" is process-wide mutable state. -/
structure Region where
  n : ℤ
  s : ℤ
  w : ℤ
  e : ℤ
  nsres : ℤ
  ewres : ℤ
deriving DecidableEq

/-- One feature of a vector map: an integer category and its bounds. -/
structure Cell where
  cat : ℕ
  rect : Rect
deriving DecidableEq

/-- A vector map, as the list of its features in store order. -/
structure VectorMap where
  cells : List Cell
deriving DecidableEq

/-- Observable actions of the library: an external command invocation
(`grass.run_command` and friends), a `grass.message`, a `grass.warning`. -/
inductive Event where
  | cmd (name : String) (args : List (String × String))
  | msg (text : String)
  | warn (text : String)
deriving DecidableEq

/-- The `grass.gisenv()` fields the library reads. -/
structure GisEnv where
  gisdbase : String
  location : String
  mapset : String
deriving DecidableEq

/-- The ambient GRASS session state threaded through every helper. -/
structure GrassState where
  region : Region
  savedRegions : List (String × Region)
  vectors : List (String × VectorMap)
  env : GisEnv
  trace : List Event
deriving DecidableEq

/-- Association-list lookup by name (first match wins, as in the GIS store). -/
def lookupA {α : Type} (k : String) : List (String × α) → Option α
  | [] => none
  | (k2, v) :: rest => if k2 = k then some v else lookupA k rest

/-- Association-list update: overwrite the first binding of `k`, else append. -/
def setA {α : Type} (k : String) (v : α) : List (String × α) → List (String × α)
  | [] => [(k, v)]
  | (k2, v2) :: rest => if k2 = k then (k, v) :: rest else (k2, v2) :: setA k v rest

/-- Association-list removal of every binding of `k`. -/
def removeA {α : Type} (k : String) : List (String × α) → List (String × α)
  | [] => []
  | (k2, v2) :: rest => if k2 = k then removeA k rest else (k2, v2) :: removeA k rest

/-- Is `a` a prefix of `b` (over characters)? -/
def charsPrefixOf : List Char → List Char → Bool
  | [], _ => true
  | _ :: _, [] => false
  | a :: as, b :: bs => a = b && charsPrefixOf as bs

/-- Does `hay` contain `needle` as a contiguous run (over characters)? -/
def charsInfixOf (needle : List Char) : List Char → Bool
  | [] => charsPrefixOf needle []
  | b :: rest => charsPrefixOf needle (b :: rest) || charsInfixOf needle rest

/-- Python's `needle in hay` on strings. -/
def strContains (hay needle : String) : Bool := charsInfixOf needle.data hay.data

/-- Python's whitespace test used by `str.strip`. -/
def isSpaceChar (c : Char) : Bool := c = ' ' || c = '\n' || c = '\t' || c = '\r'

/-- Python's `str.strip()`. -/
def pyStrip (s : String) : String :=
  String.mk (((s.data.dropWhile isSpaceChar).reverse.dropWhile isSpaceChar).reverse)

/-- Split a character list at every occurrence of `c`. -/
def splitOnChar (c : Char) : List Char → List (List Char)
  | [] => [[]]
  | x :: xs =>
    let r := splitOnChar c xs
    if x = c then [] :: r
    else
      match r with
      | [] => [[x]]
      | h :: t => (x :: h) :: t

/-- Python's `str.split("\n")`. -/
def splitLines (s : String) : List String := (splitOnChar '\n' s.data).map String.mk

/-- Python's `module.replace(".", "_")` (single-character replacement). -/
def sanitizeModule (m : String) : String :=
  String.mk (m.data.map (fun c => if c = '.' then '_' else c))

/-- Errors a helper can raise: a failed external command
(`CalledModuleError`), a `grass.fatal`, a Python `IndexError`. -/
inductive GErr where
  | cmdFail (name : String)
  | fatalMsg (text : String)
  | indexError
deriving DecidableEq

/-- Result of a helper: either an error with the ambient state at the raise,
or a value with the final ambient state. -/
abbrev GRes (α : Type) := Except (GErr × GrassState) (α × GrassState)

/-- Record an observable event. -/
def pushEvent (ev : Event) (st : GrassState) : GrassState :=
  { st with trace := st.trace ++ [ev] }

/-- One `grass.run_command` call: the invocation is recorded, then the call
fails (oracle says so, or its precondition on the store is violated) or its
effect is applied. -/
def runGrassCmd (fails : String → Bool) (name : String) (args : List (String × String))
    (pre : GrassState → Bool) (eff : GrassState → GrassState) (st : GrassState) : GRes Unit :=
  let st1 := pushEvent (Event.cmd name args) st
  if fails name || !(pre st1) then Except.error (GErr.cmdFail name, st1)
  else Except.ok ((), eff st1)

/-- `grass.find_file(name, element="vector")["file"] != ""`. -/
def findVectorFile (name : String) (st : GrassState) : Bool := (lookupA name st.vectors).isSome

/-- `grass.find_file(name, element="windows")["file"] != ""`. -/
def findRegionFile (name : String) (st : GrassState) : Bool :=
  (lookupA name st.savedRegions).isSome

/-- The failure oracle of a run in which every external command succeeds. -/
def noFail : String → Bool := fun _ => false

/-- Bounds of the current region as a rectangle. -/
def rectOfRegion (r : Region) : Rect := { n := r.n, s := r.s, w := r.w, e := r.e }

/-- Closed axis-aligned rectangle overlap (shared boundaries count, matching
`v.select operator=overlap`). -/
def rectOverlapB (a b : Rect) : Bool :=
  decide (a.w ≤ b.e ∧ b.w ≤ a.e ∧ a.s ≤ b.n ∧ b.s ≤ a.n)

/-- Does a feature overlap any feature of `vm`? -/
def cellOverlapsMap (c : Cell) (vm : VectorMap) : Bool :=
  vm.cells.any (fun c2 => rectOverlapB c.rect c2.rect)

/-- The features of `cs` kept by `v.select operator=overlap` against `vm`. -/
def selectOverlap (cs : List Cell) (vm : VectorMap) : List Cell :=
  cs.filter (fun c => cellOverlapsMap c vm)

/-- Union of two bounding rectangles. -/
def rectUnion (a b : Rect) : Rect :=
  { n := imax a.n b.n, s := imin a.s b.s, w := imin a.w b.w, e := imax a.e b.e }

/-- Bounding box of a feature list (none when the map is empty). -/
def bboxCells : List Cell → Option Rect
  | [] => none
  | c :: cs => some (cs.foldl (fun acc c2 => rectUnion acc c2.rect) c.rect)

/-- Replace a region's bounds, keeping its resolutions. -/
def regionWithBounds (r : Region) (b : Rect) : Region :=
  { n := b.n, s := b.s, w := b.w, e := b.e, nsres := r.nsres, ewres := r.ewres }

/-- Effect of `g.region vector=<map>`: bounds become the map's bounding box
(unchanged for an empty map). -/
def regionFromVector (r : Region) (vm : VectorMap) : Region :=
  match bboxCells vm.cells with
  | some b => regionWithBounds r b
  | none => r

/-- Effect of `g.region res=<res> -a`: resolutions set to `res` and bounds
aligned outward to multiples of `res`. -/
def alignRegion (r : Region) (res : ℤ) : Region :=
  { n := iceilMult r.n res, s := ifloorMult r.s res,
    w := ifloorMult r.w res, e := iceilMult r.e res,
    nsres := res, ewres := res }

/-- The single feature `v.in.region` creates: category 1, region bounds. -/
def singleCellOf (r : Region) : List Cell := [{ cat := 1, rect := rectOfRegion r }]

/-- The regular grid `v.mkgrid box=ts,ts` creates over region `r`, numbered
row-major from the north-west corner starting at category 1. -/
def mkgridCells (r : Region) (ts : ℤ) : List Cell :=
  let rows := (iceilDiv (r.n - r.s) ts).toNat
  let cols := (iceilDiv (r.e - r.w) ts).toNat
  ((List.range rows).map (fun i =>
    (List.range cols).map (fun j =>
      ({ cat := i * cols + j + 1,
         rect := { n := r.n - (i : ℤ) * ts, s := r.n - ((i : ℤ) + 1) * ts,
                   w := r.w + (j : ℤ) * ts, e := r.w + ((j : ℤ) + 1) * ts } } : Cell)))).flatten

/-- The working grid `create_grid` builds over working region `r`: one cell
equal to `r` when both extents are at most the tile size, else `v.mkgrid`
over the resolution-aligned region. -/
def builtGridCells (r : Region) (tile_size : ℤ) : List Cell :=
  if iabs (r.n - r.s) ≤ tile_size ∧ iabs (r.w - r.e) ≤ tile_size then singleCellOf r
  else mkgridCells (alignRegion r tile_size) tile_size

/-- The working region of `create_grid`: the current region, or the bounding
extent of `area` when `area` is given. -/
def workRegionOf (st : GrassState) (area : Option String) : Region :=
  match area with
  | none => st.region
  | some a => regionFromVector st.region ((lookupA a st.vectors).getD { cells := [] })

/-- cleanup.reset_region: set the current region to the saved region `region`
and delete the snapshot; a no-op when the name is empty or not saved. -/
def reset_region (fails : String → Bool) (region : String) (st : GrassState) : GRes Unit :=
  if region != "" && findRegionFile region st then
    match runGrassCmd fails ("g.region") [("region", region)] (fun _ => true)
        (fun s => { s with region := (lookupA region s.savedRegions).getD s.region }) st with
    | Except.error e => Except.error e
    | Except.ok (_, st1) =>
        runGrassCmd fails ("g.remove") [("type", "region"), ("name", region), ("flags", "f")]
          (fun _ => true)
          (fun s => { s with savedRegions := removeA region s.savedRegions }) st1
  else Except.ok ((), st)

/-- cleanup.rm_vects: remove each listed vector map that exists. -/
def rm_vects (fails : String → Bool) (vects : List String) (st : GrassState) : GRes Unit :=
  match vects with
  | [] => Except.ok ((), st)
  | v :: rest =>
    if findVectorFile v st then
      match runGrassCmd fails ("g.remove") [("type", "vector"), ("name", v), ("flags", "f")]
          (fun _ => true)
          (fun s => { s with vectors := removeA v s.vectors }) st with
      | Except.error e => Except.error e
      | Except.ok (_, st1) => rm_vects fails rest st1
    else rm_vects fails rest st

/-- The `grass.fatal` message of tiling.create_grid when the clipped grid is
empty. -/
def regionMismatchMsg (area : String) : String :=
  "The set region is not overlapping with " ++ area ++ ". Please define another region."

/-- The `for tile in tiles_num_list` loop of tiling.create_grid: extract each
category into `{grid_prefix}_{cat}` (with overwrite) and collect the names. -/
def extractTilesLoop (fails : String → Bool) (grid_name : String) ( grid_prefix : String)
    (cats : List ℕ) (st : GrassState) : GRes (List String) :=
  match cats with
  | [] => Except.ok ([], st)
  | c :: rest =>
    let tile_area := grid_prefix ++ "_" ++ toString c
    match runGrassCmd fails ("v.extract")
        [("input", grid_name), ("where", "cat == " ++ toString c),
         ("output", tile_area), ("overwrite", "True")]
        (fun s => findVectorFile grid_name s)
        (fun s =>
          let sub : VectorMap :=
            { cells := ((lookupA grid_name s.vectors).getD { cells := [] }).cells.filter
                (fun cl => cl.cat == c) }
          { s with vectors := setA tile_area sub s.vectors }) st with
    | Except.error e => Except.error e
    | Except.ok (_, st1) =>
      match extractTilesLoop fails grid_name grid_prefix rest st1 with
      | Except.error e => Except.error e
      | Except.ok (tiles, st2) => Except.ok (tile_area :: tiles, st2)

/-- The `if area:` block of tiling.create_grid (set the region to the
bounding extent of `area`); a no-op when no area is given. -/
def gRegionToVector (fails : String → Bool) (area : Option String) (st : GrassState) :
    GRes Unit :=
  match area with
  | some a =>
      runGrassCmd fails ("g.region") [("vector", a)]
        (fun s => findVectorFile a s)
        (fun s => { s with
          region := regionFromVector s.region ((lookupA a s.vectors).getD { cells := [] }) }) st
  | none => Except.ok ((), st)

/-- The grid-construction branch of tiling.create_grid: `v.in.region` plus
`v.db.addtable` when both extents are at most `tile_size`, else
`g.region res=tile_size -a` followed by `v.mkgrid`. -/
def buildWorkingGrid (fails : String → Bool) (tile_size : ℤ) (grid : String)
    (dist_ns dist_ew : ℤ) (st : GrassState) : GRes Unit :=
  if dist_ns ≤ tile_size ∧ dist_ew ≤ tile_size then
    match runGrassCmd fails ("v.in.region") [("output", grid)]
        (fun s => !(findVectorFile grid s))
        (fun s => { s with vectors := setA grid { cells := singleCellOf s.region } s.vectors })
        st with
    | Except.error e => Except.error e
    | Except.ok (_, s1) =>
        runGrassCmd fails ("v.db.addtable") [("map", grid), ("columns", "cat int")]
          (fun s => findVectorFile grid s) (fun s => s) s1
  else
    match runGrassCmd fails ("g.region") [("res", toString tile_size), ("flags", "a")]
        (fun _ => true)
        (fun s => { s with region := alignRegion s.region tile_size }) st with
    | Except.error e => Except.error e
    | Except.ok (_, s1) =>
        runGrassCmd fails ("v.mkgrid")
          [("map", grid), ("box", toString tile_size ++ "," ++ toString tile_size)]
          (fun s => !(findVectorFile grid s))
          (fun s => { s with
            vectors := setA grid { cells := mkgridCells s.region tile_size } s.vectors }) s1

/-- The clip block of tiling.create_grid: with an area, `v.select
operator=overlap` into `tmp_grid_area_{sid}` and a fatal when that output is
missing (empty clip); without an area, `grid_name` is the working grid. -/
def clipGridToArea (fails : String → Bool) (sid grid : String) (area : Option String)
    (st : GrassState) : GRes String :=
  match area with
  | some a =>
    (match runGrassCmd fails ("v.select")
        [("ainput", grid), ("binput", a), ("output", "tmp_grid_area_" ++ sid),
         ("operator", "overlap")]
        (fun s => findVectorFile grid s && findVectorFile a s
          && !(findVectorFile ("tmp_grid_area_" ++ sid) s))
        (fun s =>
          let sel := selectOverlap ((lookupA grid s.vectors).getD { cells := [] }).cells
                      ((lookupA a s.vectors).getD { cells := [] })
          if sel.isEmpty then s
          else { s with vectors := setA ("tmp_grid_area_" ++ sid) { cells := sel } s.vectors })
        st with
    | Except.error e => Except.error e
    | Except.ok (_, s1) =>
      if findVectorFile ("tmp_grid_area_" ++ sid) s1 then
        Except.ok (("tmp_grid_area_" ++ sid), s1)
      else Except.error (GErr.fatalMsg (regionMismatchMsg a), s1))
  | none => Except.ok (grid, st)

/-- The tile enumeration of tiling.create_grid: `v.db.select columns=cat -c`
parsed into the category list. -/
def vDbSelectCats (fails : String → Bool) (grid_name : String) (st : GrassState) :
    GRes (List ℕ) :=
  let st1 := pushEvent (Event.cmd ("v.db.select")
    [("map", grid_name), ("columns", "cat"), ("flags", "c")]) st
  if fails ("v.db.select") || !(findVectorFile grid_name st1) then
    Except.error (GErr.cmdFail ("v.db.select"), st1)
  else
    Except.ok (((lookupA grid_name st1.vectors).getD { cells := [] }).cells.map
      (fun cl => cl.cat), st1)

/-- tiling.create_grid: save the region, optionally set it to `area`, build a
working grid (single tile when both extents are at most `tile_size`, else
`v.mkgrid` at resolution `tile_size`), restore the region, clip to `area`
(fatal when the clip is empty), extract each surviving category into
`{grid_prefix}_{cat}`, delete the intermediates and return the tile names. -/
def create_grid (fails : String → Bool) (tile_size : ℤ) ( grid_prefix : String) (sid : String)
    (area : Option String) (st0 : GrassState) : GRes (List String) :=
  let orig_region := "grid_region_" ++ sid
  match runGrassCmd fails ("g.region") [("save", orig_region)] (fun _ => true)
      (fun s => { s with savedRegions := setA orig_region s.region s.savedRegions }) st0 with
  | Except.error e => Except.error e
  | Except.ok (_, stA) =>
  match gRegionToVector fails area stA with
  | Except.error e => Except.error e
  | Except.ok (_, stB) =>
  let region := stB.region
  let dist_ns := iabs (region.n - region.s)
  let dist_ew := iabs (region.w - region.e)
  let stC := pushEvent (Event.msg ("Creating tiles...")) stB
  let grid := "tmp_grid_" ++ sid
  match buildWorkingGrid fails tile_size grid dist_ns dist_ew stC with
  | Except.error e => Except.error e
  | Except.ok (_, stD) =>
  match reset_region fails orig_region stD with
  | Except.error e => Except.error e
  | Except.ok (_, stE) =>
  match clipGridToArea fails sid grid area stE with
  | Except.error e => Except.error e
  | Except.ok (grid_name, stF) =>
  match vDbSelectCats fails grid_name stF with
  | Except.error e => Except.error e
  | Except.ok (tiles_num_list, stG) =>
  let number_tiles := tiles_num_list.length
  let stH := pushEvent (Event.msg ("Number of tiles is: " ++ toString number_tiles)) stG
  match extractTilesLoop fails grid_name grid_prefix tiles_num_list stH with
  | Except.error e => Except.error e
  | Except.ok (tiles_list, stI) =>
  match rm_vects fails [grid, grid_name] stI with
  | Except.error e => Except.error e
  | Except.ok (_, stJ) => Except.ok (tiles_list, stJ)

/-- The outcome the external toolkit will hand a dispatched job: its captured
error stream and its return code. -/
structure JobOutcome where
  stderrS : String
  returncode : ℤ
deriving DecidableEq

/-- Environment oracle for one dispatch run: the outcome of the job built for
tile index `i`, and what the ambient `gisenv` looks like once the queue has
run (workers are separate processes; a leaky worker could have altered it --
exactly what `verify_mapsets` defends against). -/
structure DispatchOracle where
  outcome : ℕ → JobOutcome
  envAfterWait : GisEnv → GisEnv

/-- A pygrass `Module` put on the queue: the operation, the parameters it was
constructed with, and (once run) its captured error stream and return code. -/
structure PMod where
  moduleName : String
  kwargs : List (String × String)
  stderrS : String
  returncode : ℤ
deriving DecidableEq

/-- `mod.get_bash()`: the invocation description used in diagnostics. -/
def pModBash (m : PMod) : String :=
  m.moduleName ++ String.join (m.kwargs.map (fun kv => " " ++ kv.1 ++ "=" ++ kv.2))

/-- mapset.verify_mapsets: fatal when the ambient mapset differs from
`start_cur_mapset`, else the location path `gisdbase/location`. -/
def verify_mapsets (start_cur_mapset : String) (st : GrassState) : GRes String :=
  let env := st.env
  if env.mapset != start_cur_mapset then
    Except.error
      (GErr.fatalMsg ("new mapset is " ++ env.mapset ++ ", but should be " ++ start_cur_mapset),
       st)
  else Except.ok (env.gisdbase ++ "/" ++ env.location, st)

/-- parallel.check_parallel_warnings: issue a `grass.warning` for every
finished module whose stripped error stream contains "WARN". -/
def check_parallel_warnings (finished : List PMod) (st : GrassState) : GrassState :=
  match finished with
  | [] => st
  | m :: rest =>
    let stderr := pyStrip m.stderrS
    let st1 :=
      if strContains stderr ("WARN") then
        pushEvent (Event.warn ("\nWARNING processing <" ++ pModBash m ++ ">: " ++ stderr)) st
      else st
    check_parallel_warnings rest st1

/-- The workspace name run_module_parallel builds for tile index `num`:
`tmp_{module with dots replaced}_{num}_{uid}`. -/
def jobName (module : String) (num : ℕ) (uid : String) : String :=
  "tmp_" ++ sanitizeModule module ++ "_" ++ toString num ++ "_" ++ uid

/-- Result of the `for num, tile in enumerate(tile_list)` loop of
run_module_parallel: appended mapset names, the caller's mapping after its
in-place updates, the queued modules, whether a sequential `run_command`
raised, and the ambient state. -/
structure LoopOut where
  mapset_names : List String
  kwargsOut : List (String × String)
  queued : List PMod
  seqExc : Bool
  stOut : GrassState
deriving DecidableEq

/-- The dispatch loop of parallel.run_module_parallel.  Each iteration
messages, derives the workspace name, mutates the caller's mapping with
`new_mapset` and `area`, then either queues a `Module` (parallel) or runs the
operation synchronously (an exception there ends the loop early). -/
def dispatchLoop (oracle : DispatchOracle) (module : String) (uid : String) (parallel : Bool)
    (num : ℕ) (kwargs : List (String × String)) (tiles : List String) (st : GrassState) :
    LoopOut :=
  match tiles with
  | [] => { mapset_names := [], kwargsOut := kwargs, queued := [], seqExc := false, stOut := st }
  | tile :: rest =>
    let st1 := pushEvent (Event.msg ("Running " ++ module ++ " for tile " ++ toString num ++ " ...")) st
    let new_mapset := jobName module num uid
    let kw2 := setA ("area") tile (setA ("new_mapset") new_mapset kwargs)
    if parallel then
      let out := oracle.outcome num
      let m : PMod :=
        { moduleName := module, kwargs := kw2, stderrS := out.stderrS, returncode := out.returncode }
      let r := dispatchLoop oracle module uid parallel (num + 1) kw2 rest st1
      { mapset_names := new_mapset :: r.mapset_names, kwargsOut := r.kwargsOut,
        queued := m :: r.queued, seqExc := r.seqExc, stOut := r.stOut }
    else
      let st2 := pushEvent (Event.cmd module kw2) st1
      let out := oracle.outcome num
      if out.returncode != 0 then
        { mapset_names := [new_mapset], kwargsOut := kw2, queued := [], seqExc := true,
          stOut := st2 }
      else
        let r := dispatchLoop oracle module uid parallel (num + 1) kw2 rest st2
        { mapset_names := new_mapset :: r.mapset_names, kwargsOut := r.kwargsOut,
          queued := r.queued, seqExc := r.seqExc, stOut := r.stOut }

/-- The inner loop of run_module_parallel's log replay: message every
non-empty line. -/
def logLines (parts : List String) (st : GrassState) : GrassState :=
  match parts with
  | [] => st
  | p :: rest => logLines rest (if p.length > 0 then pushEvent (Event.msg p) st else st)

/-- run_module_parallel's log replay over the finished modules. -/
def logFinished (finished : List PMod) (st : GrassState) : GrassState :=
  match finished with
  | [] => st
  | m :: rest =>
    let msg := pyStrip m.stderrS
    let st1 := pushEvent (Event.msg ("\nLog of " ++ pModBash m ++ ":")) st
    logFinished rest (logLines (splitLines msg) st1)

/-- parallel.run_module_parallel.  Records the starting mapset, runs the
dispatch loop, waits on the queue (an exception is answered by a fatal for
the first queued module with a non-zero return code; a sequential exception
with an empty queue falls through), replays the finished modules' logs, and
verifies the ambient mapset is unchanged before returning the mapset names,
the location path, the caller's mutated mapping and the final state. -/
def run_module_parallel (oracle : DispatchOracle) (module : String)
    (module_kwargs : List (String × String)) (tile_list : List String)
    (nprocs : ℕ) (uid : String) (parallel : Bool) (st : GrassState) :
    Except (GErr × GrassState) ((List String × String) × List (String × String) × GrassState) :=
  let start_cur_mapset := st.env.mapset
  let r := dispatchLoop oracle module uid parallel 0 module_kwargs tile_list st
  let st1 := { r.stOut with env := oracle.envAfterWait r.stOut.env }
  let waitExc := r.seqExc || (parallel && r.queued.any (fun m => m.returncode != 0))
  match (if waitExc then
      match r.queued.find? (fun m => m.returncode != 0) with
      | some m =>
          Except.error
            (GErr.fatalMsg ("\nERROR by processing <" ++ pModBash m ++ ">: " ++ pyStrip m.stderrS),
             st1)
      | none => Except.ok ((), st1)
    else Except.ok ((), st1)) with
  | Except.error e => Except.error e
  | Except.ok (_, st2) =>
  let finished := if parallel then r.queued else []
  let st3 := logFinished finished st2
  match verify_mapsets start_cur_mapset st3 with
  | Except.error e => Except.error e
  | Except.ok (location_path, st4) =>
      Except.ok ((r.mapset_names, location_path), r.kwargsOut, st4)

/-- parallel.patching_vector_results: `v.patch -e --overwrite` over
`{output}@{mapset}` when more than one mapset, else `g.copy` of the single
subset; an empty list hits Python's `mapsets[0]` and raises `IndexError`
before any command is built. -/
def patching_vector_results (fails : String → Bool) (mapsets : List String) (output : String)
    (st : GrassState) : GRes Unit :=
  let st1 := pushEvent (Event.msg ("Patching vector " ++ output ++ " subsets ...")) st
  if mapsets.length > 1 then
    let subset_mapset := mapsets.map (fun m => output ++ "@" ++ m)
    runGrassCmd fails ("v.patch")
      [("input", String.intercalate (",") subset_mapset), ("output", output), ("flags", "e"),
       ("overwrite", "True")]
      (fun _ => true) (fun s => s) st1
  else
    match mapsets with
    | [] => Except.error (GErr.indexError, st1)
    | m0 :: _ =>
      runGrassCmd fails ("g.copy")
        [("vector", output ++ "@" ++ m0 ++ "," ++ output), ("overwrite", "True")]
        (fun _ => true) (fun s => s) st1

/-- parallel.patching_raster_results: `r.patch --overwrite` over
`{output}@{mapset}` when more than one mapset, else `g.copy` of the single
subset; an empty list hits Python's `mapsets[0]` and raises `IndexError`
before any command is built. -/
def patching_raster_results (fails : String → Bool) (mapsets : List String) (output : String)
    (st : GrassState) : GRes Unit :=
  let st1 := pushEvent (Event.msg ("Patching raster " ++ output ++ " subsets ...")) st
  if mapsets.length > 1 then
    let subset_mapset := mapsets.map (fun m => output ++ "@" ++ m)
    runGrassCmd fails ("r.patch")
      [("input", String.intercalate (",") subset_mapset), ("output", output),
       ("overwrite", "True")]
      (fun _ => true) (fun s => s) st1
  else
    match mapsets with
    | [] => Except.error (GErr.indexError, st1)
    | m0 :: _ =>
      runGrassCmd fails ("g.copy")
        [("raster", output ++ "@" ++ m0 ++ "," ++ output), ("overwrite", "True")]
        (fun _ => true) (fun s => s) st1

/-- Did the computation end in an error? -/
def isErr {α : Type} : GRes α → Bool
  | Except.ok _ => false
  | Except.error _ => true

/-- The returned value of a successful computation. -/
def okValue {α : Type} : GRes α → Option α
  | Except.ok (a, _) => some a
  | Except.error _ => none

/-- The ambient state when the computation ended, error or not. -/
def finalState {α : Type} : GRes α → Option GrassState
  | Except.ok (_, st) => some st
  | Except.error (_, st) => some st

/-- The current region when the computation ended (`dflt` is never used on
the results this file inspects, which always carry a state). -/
def finalRegion {α : Type} (dflt : Region) (r : GRes α) : Region :=
  match r with
  | Except.ok (_, st) => st.region
  | Except.error (_, st) => st.region

/-- The event trace when the computation ended, error or not. -/
def finalTrace {α : Type} : GRes α → List Event
  | Except.ok (_, st) => st.trace
  | Except.error (_, st) => st.trace

/-- Is an event a `grass.warning`? -/
def isWarnEvent : Event → Bool
  | Event.warn _ => true
  | _ => false

/-- Is an event an external command invocation? -/
def isCmdEvent : Event → Bool
  | Event.cmd _ _ => true
  | _ => false

/-- The warnings check_parallel_warnings must emit: one per finished module
whose stripped error stream contains "WARN", in queue order. -/
def warnEventsOf (finished : List PMod) : List Event :=
  (finished.filter (fun m => strContains (pyStrip m.stderrS) ("WARN"))).map
    (fun m => Event.warn ("\nWARNING processing <" ++ pModBash m ++ ">: " ++ pyStrip m.stderrS))

/-- The caller's mapping after run_module_parallel's loop has updated it in
place once per tile. -/
def loopKwargs (module : String) (uid : String) : ℕ → List (String × String) → List String →
    List (String × String)
  | _, kwargs, [] => kwargs
  | num, kwargs, t :: rest =>
      loopKwargs module uid (num + 1)
        (setA ("area") t (setA ("new_mapset") (jobName module num uid) kwargs)) rest

/-- The modules run_module_parallel queues, with the parameters each was
constructed with. -/
def queuedJobs (oracle : DispatchOracle) (module : String) (uid : String) :
    ℕ → List (String × String) → List String → List PMod
  | _, _, [] => []
  | num, kwargs, t :: rest =>
    let kw2 := setA ("area") t (setA ("new_mapset") (jobName module num uid) kwargs)
    { moduleName := module, kwargs := kw2, stderrS := (oracle.outcome num).stderrS,
      returncode := (oracle.outcome num).returncode } ::
      queuedJobs oracle module uid (num + 1) kw2 rest

/-- A small region: both extents 5, unit resolutions. -/
def rgnSmall : Region := { n := 5, s := 0, w := 0, e := 5, nsres := 1, ewres := 1 }

/-- A wider region: both extents 10, unit resolutions. -/
def rgnWide : Region := { n := 10, s := 0, w := 0, e := 10, nsres := 1, ewres := 1 }

/-- A concrete session environment for concrete runs. -/
def env0 : GisEnv := { gisdbase := "/data", location := "loc", mapset := "PERMANENT" }

/-- A fresh session over the small region. -/
def stSmall : GrassState :=
  { region := rgnSmall, savedRegions := [], vectors := [], env := env0, trace := [] }

/-- A fresh session over the wide region. -/
def stWide : GrassState :=
  { region := rgnWide, savedRegions := [], vectors := [], env := env0, trace := [] }

/-- The failure oracle under which only `v.mkgrid` fails. -/
def failsMkgrid : String → Bool := fun c => c == "v.mkgrid"

/-- A dispatch oracle: every job succeeds with a "WARN"-bearing error stream,
and no worker leaks ambient state. -/
def oracleWarn : DispatchOracle :=
  { outcome := fun _ => { stderrS := "WARN: boundary snapped", returncode := 0 },
    envAfterWait := fun e => e }

/-- A dispatch oracle: every job succeeds quietly and no worker leaks. -/
def oracleQuiet : DispatchOracle :=
  { outcome := fun _ => { stderrS := "", returncode := 0 },
    envAfterWait := fun e => e }

/-- A dispatch oracle whose workers leak: after the queue runs, the ambient
mapset has been switched to "leaked". -/
def oracleLeak : DispatchOracle :=
  { outcome := fun _ => { stderrS := "", returncode := 0 },
    envAfterWait := fun e => { e with mapset := "leaked" } }

/-- A vector map with no features. -/
def vmEmpty : VectorMap := { cells := [] }

/-- A session over the small region holding an area vector with no features,
so that no grid tile can overlap it. -/
def stC6 : GrassState :=
  { region := rgnSmall, savedRegions := [], vectors := [("aoi", vmEmpty)], env := env0,
    trace := [] }

@[simp] theorem pushEvent_region (ev : Event) (st : GrassState) :
    (pushEvent ev st).region = st.region := rfl

@[simp] theorem pushEvent_savedRegions (ev : Event) (st : GrassState) :
    (pushEvent ev st).savedRegions = st.savedRegions := rfl

@[simp] theorem pushEvent_vectors (ev : Event) (st : GrassState) :
    (pushEvent ev st).vectors = st.vectors := rfl

@[simp] theorem pushEvent_env (ev : Event) (st : GrassState) :
    (pushEvent ev st).env = st.env := rfl

@[simp] theorem pushEvent_trace (ev : Event) (st : GrassState) :
    (pushEvent ev st).trace = st.trace ++ [ev] := rfl

@[simp] theorem lookupA_setA_self {α : Type} (k : String) (v : α) (l : List (String × α)) :
    lookupA k (setA k v l) = some v := by
  induction l with
  | nil => simp [setA, lookupA]
  | cons hd tl ih =>
    by_cases h : hd.1 = k
    · simp [setA, lookupA, h]
    · simp [setA, lookupA, h, ih]

theorem lookupA_setA_ne {α : Type} {k k2 : String} (h : k2 ≠ k) (v : α)
    (l : List (String × α)) : lookupA k2 (setA k v l) = lookupA k2 l := by
  have hk : k ≠ k2 := fun hh => h hh.symm
  induction l with
  | nil => simp [setA, lookupA, hk]
  | cons hd tl ih =>
    by_cases h2 : hd.1 = k
    · have hd2 : hd.1 ≠ k2 := by
        rw [h2]
        exact hk
      simp [setA, lookupA, h2, hk, hd2]
    · simp [setA, lookupA, h2, ih]

theorem lookupA_removeA_ne {α : Type} {k k2 : String} (h : k2 ≠ k)
    (l : List (String × α)) : lookupA k2 (removeA k l) = lookupA k2 l := by
  induction l with
  | nil => simp [removeA, lookupA]
  | cons hd tl ih =>
    have hk : k ≠ k2 := fun hh => h hh.symm
    by_cases h2 : hd.1 = k
    · simp [removeA, lookupA, h2, hk, ih]
    · simp [removeA, lookupA, h2, ih]

@[simp] theorem lookupA_removeA_self {α : Type} (k : String) (l : List (String × α)) :
    lookupA k (removeA k l) = none := by
  induction l with
  | nil => simp [removeA, lookupA]
  | cons hd tl ih =>
    by_cases h2 : hd.1 = k
    · simp [removeA, h2, ih]
    · simp [removeA, lookupA, h2, ih]

theorem setA_setA_same {α : Type} (k : String) (v v2 : α) (l : List (String × α)) :
    setA k v (setA k v2 l) = setA k v l := by
  induction l with
  | nil => simp [setA]
  | cons hd tl ih =>
    by_cases h : hd.1 = k
    · simp [setA, h]
    · simp [setA, h, ih]

theorem setA_pair_collapse {α : Type} {ka kn : String} (h : ka ≠ kn) (x y x2 y2 : α)
    (l : List (String × α)) :
    setA ka x (setA kn y (setA ka x2 (setA kn y2 l))) = setA ka x (setA kn y l) := by
  have hk : kn ≠ ka := Ne.symm h
  induction l with
  | nil => simp [setA, h, hk]
  | cons hd tl ih =>
    by_cases h2 : hd.1 = kn
    · simp [setA, h2, hk, setA_setA_same]
    · by_cases h3 : hd.1 = ka
      · simp [setA, h2, h3, h, setA_setA_same]
      · simp [setA, h2, h3]
        exact ih

theorem runGrassCmd_ok {fails : String → Bool} {name : String} {args : List (String × String)}
    {pre : GrassState → Bool} {eff : GrassState → GrassState} {st : GrassState} {u : Unit}
    {st1 : GrassState} (h : runGrassCmd fails name args pre eff st = Except.ok (u, st1)) :
    st1 = eff (pushEvent (Event.cmd name args) st) := by
  unfold runGrassCmd at h
  dsimp only at h
  split at h
  · simp at h
  · simp at h
    exact h.symm

theorem runGrassCmd_noFail_pre {name : String} {args : List (String × String)}
    {pre : GrassState → Bool} {eff : GrassState → GrassState} {st : GrassState}
    (h : pre (pushEvent (Event.cmd name args) st) = true) :
    runGrassCmd noFail name args pre eff st =
      Except.ok ((), eff (pushEvent (Event.cmd name args) st)) := by
  unfold runGrassCmd
  simp [noFail, h]

theorem finalTrace_runGrassCmd (fails : String → Bool) (name : String)
    (args : List (String × String)) (pre : GrassState → Bool) (eff : GrassState → GrassState)
    (st : GrassState) (heff : ∀ s, (eff s).trace = s.trace) :
    finalTrace (runGrassCmd fails name args pre eff st) = st.trace ++ [Event.cmd name args] := by
  unfold runGrassCmd
  dsimp only
  split
  · simp [finalTrace]
  · simp [finalTrace, heff]

/-- C10: calling the result mergers with an empty workspace list does not
produce the specified merge-precondition error: the `len(mapsets) > 1` guard
sends the empty list into the single-workspace branch, whose `mapsets[0]`
raises `IndexError` after only the progress message, before any external
command is invoked. -/
theorem c10_empty_mapsets_index_error (fails : String → Bool) (output : String)
    (st : GrassState) :
    patching_vector_results fails [] output st =
      Except.error (GErr.indexError,
        pushEvent (Event.msg ("Patching vector " ++ output ++ " subsets ...")) st)
    ∧ patching_raster_results fails [] output st =
      Except.error (GErr.indexError,
        pushEvent (Event.msg ("Patching raster " ++ output ++ " subsets ...")) st)
    ∧ (finalTrace (patching_vector_results fails [] output st)).filter isCmdEvent =
        st.trace.filter isCmdEvent
    ∧ (finalTrace (patching_raster_results fails [] output st)).filter isCmdEvent =
        st.trace.filter isCmdEvent := by
  refine ⟨rfl, rfl, ?_, ?_⟩
  · show ((pushEvent (Event.msg ("Patching vector " ++ output ++ " subsets ...")) st).trace).filter isCmdEvent = st.trace.filter isCmdEvent
    simp [isCmdEvent]
  · show ((pushEvent (Event.msg ("Patching raster " ++ output ++ " subsets ...")) st).trace).filter isCmdEvent = st.trace.filter isCmdEvent
    simp [isCmdEvent]

theorem patching_vector_single (fails : String → Bool) (output : String) (st : GrassState)
    (m : String) :
    finalTrace (patching_vector_results fails [m] output st) =
      st.trace ++ [Event.msg ("Patching vector " ++ output ++ " subsets ..."),
        Event.cmd ("g.copy")
          [("vector", output ++ "@" ++ m ++ "," ++ output), ("overwrite", "True")]] := by
  unfold patching_vector_results
  dsimp only
  rw [if_neg (by simp)]
  rw [finalTrace_runGrassCmd _ _ _ _ _ _ (fun s => rfl)]
  simp

theorem patching_raster_single (fails : String → Bool) (output : String) (st : GrassState)
    (m : String) :
    finalTrace (patching_raster_results fails [m] output st) =
      st.trace ++ [Event.msg ("Patching raster " ++ output ++ " subsets ..."),
        Event.cmd ("g.copy")
          [("raster", output ++ "@" ++ m ++ "," ++ output), ("overwrite", "True")]] := by
  unfold patching_raster_results
  dsimp only
  rw [if_neg (by simp)]
  rw [finalTrace_runGrassCmd _ _ _ _ _ _ (fun s => rfl)]
  simp

theorem patching_vector_multi (fails : String → Bool) (output : String) (st : GrassState)
    (mapsets : List String) (h : 1 < mapsets.length) :
    finalTrace (patching_vector_results fails mapsets output st) =
      st.trace ++ [Event.msg ("Patching vector " ++ output ++ " subsets ..."),
        Event.cmd ("v.patch")
          [("input", String.intercalate (",") (mapsets.map (fun m => output ++ "@" ++ m))),
           ("output", output), ("flags", "e"), ("overwrite", "True")]] := by
  unfold patching_vector_results
  dsimp only
  rw [if_pos h]
  rw [finalTrace_runGrassCmd _ _ _ _ _ _ (fun s => rfl)]
  simp

theorem patching_raster_multi (fails : String → Bool) (output : String) (st : GrassState)
    (mapsets : List String) (h : 1 < mapsets.length) :
    finalTrace (patching_raster_results fails mapsets output st) =
      st.trace ++ [Event.msg ("Patching raster " ++ output ++ " subsets ..."),
        Event.cmd ("r.patch")
          [("input", String.intercalate (",") (mapsets.map (fun m => output ++ "@" ++ m))),
           ("output", output), ("overwrite", "True")]] := by
  unfold patching_raster_results
  dsimp only
  rw [if_pos h]
  rw [finalTrace_runGrassCmd _ _ _ _ _ _ (fun s => rfl)]
  simp

/-- C3: for every non-empty workspace list, the result mergers perform a
single cross-namespace `g.copy` of `{output}@{mapset}` (and never invoke the
patch operation) when there is exactly one workspace, and invoke the patch
operation (`v.patch -e` / `r.patch`, with overwrite) over all
`{output}@{workspace}` references (and never `g.copy`) when there is more
than one.  The full command trace of each call is given, so exactly one
external operation is invoked in each case. -/
theorem c3_patching_single_vs_patch (fails : String → Bool) (output : String)
    (st : GrassState) (mapsets : List String) (hne : mapsets ≠ []) :
    (∀ m, mapsets = [m] →
      finalTrace (patching_vector_results fails mapsets output st) =
        st.trace ++ [Event.msg ("Patching vector " ++ output ++ " subsets ..."),
          Event.cmd ("g.copy")
            [("vector", output ++ "@" ++ m ++ "," ++ output), ("overwrite", "True")]]
      ∧ finalTrace (patching_raster_results fails mapsets output st) =
        st.trace ++ [Event.msg ("Patching raster " ++ output ++ " subsets ..."),
          Event.cmd ("g.copy")
            [("raster", output ++ "@" ++ m ++ "," ++ output), ("overwrite", "True")]])
    ∧ (1 < mapsets.length →
      finalTrace (patching_vector_results fails mapsets output st) =
        st.trace ++ [Event.msg ("Patching vector " ++ output ++ " subsets ..."),
          Event.cmd ("v.patch")
            [("input", String.intercalate (",") (mapsets.map (fun m => output ++ "@" ++ m))),
             ("output", output), ("flags", "e"), ("overwrite", "True")]]
      ∧ finalTrace (patching_raster_results fails mapsets output st) =
        st.trace ++ [Event.msg ("Patching raster " ++ output ++ " subsets ..."),
          Event.cmd ("r.patch")
            [("input", String.intercalate (",") (mapsets.map (fun m => output ++ "@" ++ m))),
             ("output", output), ("overwrite", "True")]]) := by
  constructor
  · intro m hm
    subst hm
    exact ⟨patching_vector_single fails output st m, patching_raster_single fails output st m⟩
  · intro h
    exact ⟨patching_vector_multi fails output st mapsets h,
      patching_raster_multi fails output st mapsets h⟩

/-- Witness for C3 at a concrete two-workspace input. -/
theorem c3_witness :
    (["w1", "w2"] : List String) ≠ []
    ∧ finalTrace (patching_vector_results noFail ["w1", "w2"] ("out") stSmall) =
      stSmall.trace ++ [Event.msg ("Patching vector out subsets ..."),
        Event.cmd ("v.patch")
          [("input", String.intercalate (",") ((["w1", "w2"] : List String).map
              (fun m => "out" ++ "@" ++ m))),
           ("output", "out"), ("flags", "e"), ("overwrite", "True")]] :=
  ⟨by decide, ((c3_patching_single_vs_patch noFail ("out") stSmall ["w1", "w2"]
    (by decide)).2 (by decide)).1⟩

/-- C8 (amended): the warning scan lives in the separate helper
`check_parallel_warnings`: called on the finished queue it emits, after all
jobs have finished, exactly one non-fatal warning per finished job whose
captured error stream contains the marker token "WARN", attributed to that
job via its invocation description; `run_module_parallel` itself performs no
such scan (see the counterexample). -/
theorem c8_check_parallel_warnings_scan (finished : List PMod) (st : GrassState) :
    (check_parallel_warnings finished st).trace = st.trace ++ warnEventsOf finished := by
  induction finished generalizing st with
  | nil => simp [check_parallel_warnings, warnEventsOf]
  | cons m rest ih =>
    by_cases h : strContains (pyStrip m.stderrS) ("WARN") = true
    · simp [check_parallel_warnings, warnEventsOf, h, ih, pushEvent]
    · simp [check_parallel_warnings, warnEventsOf, h, ih]

/-- C8 counterexample: a successful parallel run whose single job's error
stream contains "WARN", yet the trace of `run_module_parallel` contains no
warning event at all — the dispatcher does not invoke the warning scan. -/
theorem c8_counterexample :
    (match run_module_parallel oracleWarn ("v.mymod") [] ["tile0"] 2 ("u1") true stSmall with
      | Except.ok _ => true
      | Except.error _ => false) = true
    ∧ strContains (pyStrip (oracleWarn.outcome 0).stderrS) ("WARN") = true
    ∧ ((match run_module_parallel oracleWarn ("v.mymod") [] ["tile0"] 2 ("u1") true stSmall with
        | Except.ok (_, _, st4) => st4.trace
        | Except.error (_, stE) => stE.trace).filter isWarnEvent) = [] := by
  decide

theorem dispatchLoop_env (oracle : DispatchOracle) (module uid : String) (parallel : Bool)
    (tiles : List String) : ∀ (num : ℕ) (kwargs : List (String × String)) (st : GrassState),
    (dispatchLoop oracle module uid parallel num kwargs tiles st).stOut.env = st.env := by
  induction tiles with
  | nil => intro num kwargs st; simp [dispatchLoop]
  | cons t rest ih =>
    intro num kwargs st
    cases parallel
    · by_cases h0 : (oracle.outcome num).returncode = 0
      · simp [dispatchLoop, h0, ih]
      · simp [dispatchLoop, h0]
    · simp [dispatchLoop, ih]

theorem dispatchLoop_seqExc (oracle : DispatchOracle) (module uid : String) (parallel : Bool)
    (tiles : List String) : ∀ (num : ℕ) (kwargs : List (String × String)) (st : GrassState),
    (∀ i, i < tiles.length → (oracle.outcome (num + i)).returncode = 0) →
    (dispatchLoop oracle module uid parallel num kwargs tiles st).seqExc = false := by
  induction tiles with
  | nil => intro num kwargs st hok; cases parallel <;> simp [dispatchLoop]
  | cons t rest ih =>
    intro num kwargs st hok
    have h0 : (oracle.outcome num).returncode = 0 := by simpa using hok 0 (by simp)
    have hok2 : ∀ i, i < rest.length → (oracle.outcome (num + 1 + i)).returncode = 0 := by
      intro i hi
      have h2 := hok (i + 1) (by simp; omega)
      have h3 : num + (i + 1) = num + 1 + i := by omega
      rw [h3] at h2
      exact h2
    have hrec : ∀ s, (dispatchLoop oracle module uid parallel (num + 1)
        (setA ("area") t (setA ("new_mapset") (jobName module num uid) kwargs)) rest s).seqExc
        = false := fun s =>
      ih (num + 1) (setA ("area") t (setA ("new_mapset") (jobName module num uid) kwargs)) s hok2
    cases parallel
    · simp [dispatchLoop, h0, hrec]
    · simp [dispatchLoop, hrec]

theorem dispatchLoop_names (oracle : DispatchOracle) (module uid : String) (parallel : Bool)
    (tiles : List String) : ∀ (num : ℕ) (kwargs : List (String × String)) (st : GrassState),
    (∀ i, i < tiles.length → (oracle.outcome (num + i)).returncode = 0) →
    (dispatchLoop oracle module uid parallel num kwargs tiles st).mapset_names =
      (List.range tiles.length).map (fun i => jobName module (num + i) uid) := by
  induction tiles with
  | nil => intro num kwargs st hok; cases parallel <;> simp [dispatchLoop]
  | cons t rest ih =>
    intro num kwargs st hok
    have h0 : (oracle.outcome num).returncode = 0 := by simpa using hok 0 (by simp)
    have hok2 : ∀ i, i < rest.length → (oracle.outcome (num + 1 + i)).returncode = 0 := by
      intro i hi
      have h2 := hok (i + 1) (by simp; omega)
      have h3 : num + (i + 1) = num + 1 + i := by omega
      rw [h3] at h2
      exact h2
    have hrec : ∀ s, (dispatchLoop oracle module uid parallel (num + 1)
        (setA ("area") t (setA ("new_mapset") (jobName module num uid) kwargs)) rest s).mapset_names
        = (List.range rest.length).map (fun i => jobName module (num + 1 + i) uid) := fun s =>
      ih (num + 1) (setA ("area") t (setA ("new_mapset") (jobName module num uid) kwargs)) s hok2
    have hshift : (List.range (rest.length + 1)).map (fun i => jobName module (num + i) uid) =
        jobName module num uid ::
          (List.range rest.length).map (fun i => jobName module (num + 1 + i) uid) := by
      have hfun : ∀ i : ℕ, jobName module (num + (i + 1)) uid = jobName module (num + 1 + i) uid := by
        intro i
        have h3 : num + (i + 1) = num + 1 + i := by omega
        rw [h3]
      rw [List.range_succ_eq_map]
      simp [List.map_map, Function.comp, hfun]
    cases parallel
    · simp [dispatchLoop, h0, hrec, hshift]
    · simp [dispatchLoop, hrec, hshift]

theorem dispatchLoop_kwargsOut (oracle : DispatchOracle) (module uid : String) (parallel : Bool)
    (tiles : List String) : ∀ (num : ℕ) (kwargs : List (String × String)) (st : GrassState),
    (∀ i, i < tiles.length → (oracle.outcome (num + i)).returncode = 0) →
    (dispatchLoop oracle module uid parallel num kwargs tiles st).kwargsOut =
      loopKwargs module uid num kwargs tiles := by
  induction tiles with
  | nil => intro num kwargs st hok; cases parallel <;> simp [dispatchLoop, loopKwargs]
  | cons t rest ih =>
    intro num kwargs st hok
    have h0 : (oracle.outcome num).returncode = 0 := by simpa using hok 0 (by simp)
    have hok2 : ∀ i, i < rest.length → (oracle.outcome (num + 1 + i)).returncode = 0 := by
      intro i hi
      have h2 := hok (i + 1) (by simp; omega)
      have h3 : num + (i + 1) = num + 1 + i := by omega
      rw [h3] at h2
      exact h2
    have hrec : ∀ s, (dispatchLoop oracle module uid parallel (num + 1)
        (setA ("area") t (setA ("new_mapset") (jobName module num uid) kwargs)) rest s).kwargsOut
        = loopKwargs module uid (num + 1)
            (setA ("area") t (setA ("new_mapset") (jobName module num uid) kwargs)) rest :=
      fun s =>
        ih (num + 1) (setA ("area") t (setA ("new_mapset") (jobName module num uid) kwargs)) s hok2
    cases parallel
    · simp [dispatchLoop, h0, hrec, loopKwargs]
    · simp [dispatchLoop, hrec, loopKwargs]

theorem dispatchLoop_queued (oracle : DispatchOracle) (module uid : String)
    (tiles : List String) : ∀ (num : ℕ) (kwargs : List (String × String)) (st : GrassState),
    (dispatchLoop oracle module uid true num kwargs tiles st).queued =
      queuedJobs oracle module uid num kwargs tiles := by
  induction tiles with
  | nil => intro num kwargs st; simp [dispatchLoop, queuedJobs]
  | cons t rest ih =>
    intro num kwargs st
    simp [dispatchLoop, queuedJobs, ih]

theorem dispatchLoop_queued_seq (oracle : DispatchOracle) (module uid : String)
    (tiles : List String) : ∀ (num : ℕ) (kwargs : List (String × String)) (st : GrassState),
    (dispatchLoop oracle module uid false num kwargs tiles st).queued = [] := by
  induction tiles with
  | nil => intro num kwargs st; simp [dispatchLoop]
  | cons t rest ih =>
    intro num kwargs st
    by_cases h0 : (oracle.outcome num).returncode = 0
    · simp [dispatchLoop, h0, ih]
    · simp [dispatchLoop, h0]

theorem queuedJobs_any_rc (oracle : DispatchOracle) (module uid : String)
    (tiles : List String) : ∀ (num : ℕ) (kwargs : List (String × String)),
    (∀ i, i < tiles.length → (oracle.outcome (num + i)).returncode = 0) →
    (queuedJobs oracle module uid num kwargs tiles).any (fun m => m.returncode != 0) = false := by
  induction tiles with
  | nil => intro num kwargs hok; simp [queuedJobs]
  | cons t rest ih =>
    intro num kwargs hok
    have h0 : (oracle.outcome num).returncode = 0 := by simpa using hok 0 (by simp)
    have hok2 : ∀ i, i < rest.length → (oracle.outcome (num + 1 + i)).returncode = 0 := by
      intro i hi
      have h2 := hok (i + 1) (by simp; omega)
      have h3 : num + (i + 1) = num + 1 + i := by omega
      rw [h3] at h2
      exact h2
    simp [queuedJobs, h0, ih (num + 1) _ hok2]

theorem logLines_env (parts : List String) : ∀ (st : GrassState),
    (logLines parts st).env = st.env := by
  induction parts with
  | nil => intro st; simp [logLines]
  | cons p rest ih =>
    intro st
    by_cases h : p.length > 0
    · simp [logLines, h, ih]
    · simp [logLines, h, ih]

theorem logFinished_env (finished : List PMod) : ∀ (st : GrassState),
    (logFinished finished st).env = st.env := by
  induction finished with
  | nil => intro st; simp [logFinished]
  | cons m rest ih =>
    intro st
    simp [logFinished, ih, logLines_env]

theorem run_module_parallel_ok (oracle : DispatchOracle) (module : String)
    (kwargs : List (String × String)) (tiles : List String) (nprocs : ℕ) (uid : String)
    (parallel : Bool) (st : GrassState)
    (hok : ∀ i, i < tiles.length → (oracle.outcome i).returncode = 0)
    (henv : (oracle.envAfterWait st.env).mapset = st.env.mapset) :
    ∃ st4, run_module_parallel oracle module kwargs tiles nprocs uid parallel st =
      Except.ok (((List.range tiles.length).map (fun i => jobName module i uid),
        (oracle.envAfterWait st.env).gisdbase ++ "/" ++ (oracle.envAfterWait st.env).location),
        loopKwargs module uid 0 kwargs tiles, st4) := by
  have hok0 : ∀ i, i < tiles.length → (oracle.outcome (0 + i)).returncode = 0 := by
    intro i hi
    simpa using hok i hi
  have hseq := dispatchLoop_seqExc oracle module uid parallel tiles 0 kwargs st hok0
  have hnames := dispatchLoop_names oracle module uid parallel tiles 0 kwargs st hok0
  have hkw := dispatchLoop_kwargsOut oracle module uid parallel tiles 0 kwargs st hok0
  have henv2 := dispatchLoop_env oracle module uid parallel tiles 0 kwargs st
  have hany : (dispatchLoop oracle module uid parallel 0 kwargs tiles st).queued.any
      (fun m => m.returncode != 0) = false := by
    cases parallel
    · rw [dispatchLoop_queued_seq]
      simp
    · rw [dispatchLoop_queued]
      exact queuedJobs_any_rc oracle module uid tiles 0 kwargs hok0
  refine ⟨?_, ?_⟩
  · exact logFinished
      (if parallel then (dispatchLoop oracle module uid parallel 0 kwargs tiles st).queued else [])
      { (dispatchLoop oracle module uid parallel 0 kwargs tiles st).stOut with
        env := oracle.envAfterWait
          (dispatchLoop oracle module uid parallel 0 kwargs tiles st).stOut.env }
  · unfold run_module_parallel
    dsimp only
    rw [hseq, hany]
    simp only [Bool.false_or, Bool.and_false]
    rw [if_neg (show ¬(false = true) from by decide)]
    dsimp only
    unfold verify_mapsets
    dsimp only
    rw [logFinished_env]
    dsimp only
    rw [henv2, henv]
    simp only [bne_self_eq_false]
    rw [if_neg (show ¬(false = true) from by decide)]
    dsimp only
    rw [hnames, hkw]
    simp only [Nat.zero_add]

theorem run_module_parallel_fatal (oracle : DispatchOracle) (module : String)
    (kwargs : List (String × String)) (tiles : List String) (nprocs : ℕ) (uid : String)
    (parallel : Bool) (st : GrassState)
    (hok : ∀ i, i < tiles.length → (oracle.outcome i).returncode = 0)
    (henv : (oracle.envAfterWait st.env).mapset ≠ st.env.mapset) :
    ∃ stE, run_module_parallel oracle module kwargs tiles nprocs uid parallel st =
      Except.error (GErr.fatalMsg ("new mapset is " ++ (oracle.envAfterWait st.env).mapset
        ++ ", but should be " ++ st.env.mapset), stE) := by
  have hok0 : ∀ i, i < tiles.length → (oracle.outcome (0 + i)).returncode = 0 := by
    intro i hi
    simpa using hok i hi
  have hseq := dispatchLoop_seqExc oracle module uid parallel tiles 0 kwargs st hok0
  have henv2 := dispatchLoop_env oracle module uid parallel tiles 0 kwargs st
  have hany : (dispatchLoop oracle module uid parallel 0 kwargs tiles st).queued.any
      (fun m => m.returncode != 0) = false := by
    cases parallel
    · rw [dispatchLoop_queued_seq]
      simp
    · rw [dispatchLoop_queued]
      exact queuedJobs_any_rc oracle module uid tiles 0 kwargs hok0
  refine ⟨?_, ?_⟩
  · exact logFinished
      (if parallel then (dispatchLoop oracle module uid parallel 0 kwargs tiles st).queued else [])
      { (dispatchLoop oracle module uid parallel 0 kwargs tiles st).stOut with
        env := oracle.envAfterWait
          (dispatchLoop oracle module uid parallel 0 kwargs tiles st).stOut.env }
  · unfold run_module_parallel
    dsimp only
    rw [hseq, hany]
    simp only [Bool.false_or, Bool.and_false]
    rw [if_neg (show ¬(false = true) from by decide)]
    dsimp only
    unfold verify_mapsets
    dsimp only
    rw [logFinished_env]
    dsimp only
    rw [henv2]
    rw [if_pos (by simpa [bne_iff_ne] using henv)]

/-- C5: after dispatch, run_module_parallel compares the ambient mapset with
the value recorded before dispatch and raises the fatal mapset-mismatch error
exactly when they differ; when they agree it returns (besides the workspace
names and the mutated mapping) the resolved location path
`gisdbase/location`. -/
theorem c5_mapset_postcondition (oracle : DispatchOracle) (module : String)
    (kwargs : List (String × String)) (tiles : List String) (nprocs : ℕ) (uid : String)
    (parallel : Bool) (st : GrassState)
    (hok : ∀ i, i < tiles.length → (oracle.outcome i).returncode = 0) :
    ((oracle.envAfterWait st.env).mapset = st.env.mapset →
      ∃ st4, run_module_parallel oracle module kwargs tiles nprocs uid parallel st =
        Except.ok (((List.range tiles.length).map (fun i => jobName module i uid),
          (oracle.envAfterWait st.env).gisdbase ++ "/" ++ (oracle.envAfterWait st.env).location),
          loopKwargs module uid 0 kwargs tiles, st4))
    ∧ ((oracle.envAfterWait st.env).mapset ≠ st.env.mapset →
      ∃ stE, run_module_parallel oracle module kwargs tiles nprocs uid parallel st =
        Except.error (GErr.fatalMsg ("new mapset is " ++ (oracle.envAfterWait st.env).mapset
          ++ ", but should be " ++ st.env.mapset), stE)) := by
  constructor
  · intro henv
    exact run_module_parallel_ok oracle module kwargs tiles nprocs uid parallel st hok henv
  · intro henv
    exact run_module_parallel_fatal oracle module kwargs tiles nprocs uid parallel st hok henv

/-- Witness for C5: a leaky worker run ends in the fatal mismatch error. -/
theorem c5_witness :
    (∀ i, i < (["t0"] : List String).length → (oracleLeak.outcome i).returncode = 0)
    ∧ (oracleLeak.envAfterWait stSmall.env).mapset ≠ stSmall.env.mapset
    ∧ (∃ stE, run_module_parallel oracleLeak ("v.mymod") [] ["t0"] 1 ("u1") true stSmall =
        Except.error (GErr.fatalMsg ("new mapset is " ++ (oracleLeak.envAfterWait stSmall.env).mapset
          ++ ", but should be " ++ stSmall.env.mapset), stE)) :=
  ⟨fun i _ => rfl, by decide,
    (c5_mapset_postcondition oracleLeak ("v.mymod") [] ["t0"] 1 ("u1") true stSmall
      (fun i _ => rfl)).2 (by decide)⟩

theorem loopKwargs_lookup (module uid : String) (tiles : List String) :
    ∀ (num : ℕ) (kwargs : List (String × String)), tiles ≠ [] →
    lookupA ("area") (loopKwargs module uid num kwargs tiles) = tiles.getLast?
    ∧ lookupA ("new_mapset") (loopKwargs module uid num kwargs tiles) =
        some (jobName module (num + (tiles.length - 1)) uid) := by
  induction tiles with
  | nil => intro num kwargs hne; exact absurd rfl hne
  | cons t rest ih =>
    intro num kwargs _
    cases rest with
    | nil =>
      constructor
      · simp [loopKwargs, lookupA_setA_self]
      · have hne2 : ("new_mapset" : String) ≠ "area" := by decide
        simp [loopKwargs, lookupA_setA_ne hne2, lookupA_setA_self]
    | cons t2 rest2 =>
      have hrec := ih (num + 1)
        (setA ("area") t (setA ("new_mapset") (jobName module num uid) kwargs))
        (by simp)
      constructor
      · rw [show loopKwargs module uid num kwargs (t :: t2 :: rest2) =
            loopKwargs module uid (num + 1)
              (setA ("area") t (setA ("new_mapset") (jobName module num uid) kwargs))
              (t2 :: rest2) from rfl]
        rw [hrec.1]
        simp
      · rw [show loopKwargs module uid num kwargs (t :: t2 :: rest2) =
            loopKwargs module uid (num + 1)
              (setA ("area") t (setA ("new_mapset") (jobName module num uid) kwargs))
              (t2 :: rest2) from rfl]
        rw [hrec.2]
        have harith : num + 1 + ((t2 :: rest2).length - 1) =
            num + ((t :: t2 :: rest2).length - 1) := by
          simp
          omega
        rw [harith]

/-- C9: run_module_parallel mutates the caller's parameter mapping in place
(made explicit here by returning the final mapping): after a successful call
the mapping is the base mapping updated so that `new_mapset` and `area` hold
the workspace name and tile of the last tile processed, rather than
`base_params` being left unchanged. -/
theorem c9_kwargs_mutation (oracle : DispatchOracle) (module : String)
    (kwargs : List (String × String)) (tiles : List String) (nprocs : ℕ) (uid : String)
    (parallel : Bool) (st : GrassState) (hne : tiles ≠ [])
    (hok : ∀ i, i < tiles.length → (oracle.outcome i).returncode = 0)
    (henv : (oracle.envAfterWait st.env).mapset = st.env.mapset) :
    ∃ names path st4, run_module_parallel oracle module kwargs tiles nprocs uid parallel st =
      Except.ok ((names, path), loopKwargs module uid 0 kwargs tiles, st4)
    ∧ lookupA ("area") (loopKwargs module uid 0 kwargs tiles) = tiles.getLast?
    ∧ lookupA ("new_mapset") (loopKwargs module uid 0 kwargs tiles) =
        some (jobName module (tiles.length - 1) uid) := by
  obtain ⟨st4, hrun⟩ :=
    run_module_parallel_ok oracle module kwargs tiles nprocs uid parallel st hok henv
  obtain ⟨ha, hn⟩ := loopKwargs_lookup module uid tiles 0 kwargs hne
  refine ⟨_, _, st4, hrun, ha, ?_⟩
  rw [hn]
  simp

/-- Witness for C9 at a concrete two-tile run. -/
theorem c9_witness :
    (["a", "b"] : List String) ≠ []
    ∧ (∃ names path st4,
        run_module_parallel oracleQuiet ("v.mymod") [] ["a", "b"] 2 ("u1") true stSmall =
          Except.ok ((names, path), loopKwargs ("v.mymod") ("u1") 0 [] ["a", "b"], st4)
        ∧ lookupA ("area") (loopKwargs ("v.mymod") ("u1") 0 [] ["a", "b"]) =
            (["a", "b"] : List String).getLast?
        ∧ lookupA ("new_mapset") (loopKwargs ("v.mymod") ("u1") 0 [] ["a", "b"]) =
            some (jobName ("v.mymod") ((["a", "b"] : List String).length - 1) ("u1"))) :=
  ⟨by decide, c9_kwargs_mutation oracleQuiet ("v.mymod") [] ["a", "b"] 2 ("u1") true stSmall
    (by decide) (fun i _ => rfl) rfl⟩

theorem queuedJobs_length (oracle : DispatchOracle) (module uid : String) (tiles : List String) :
    ∀ (num : ℕ) (kwargs : List (String × String)),
    (queuedJobs oracle module uid num kwargs tiles).length = tiles.length := by
  induction tiles with
  | nil => intro num kwargs; simp [queuedJobs]
  | cons t rest ih => intro num kwargs; simp [queuedJobs, ih]

theorem queuedJobs_getElem (oracle : DispatchOracle) (module uid : String) (tiles : List String) :
    ∀ (num : ℕ) (kwargs : List (String × String)) (i : ℕ) (h : i < tiles.length),
    (queuedJobs oracle module uid num kwargs tiles)[i]? =
      some { moduleName := module,
             kwargs := setA ("area") (tiles.get ⟨i, h⟩)
               (setA ("new_mapset") (jobName module (num + i) uid) kwargs),
             stderrS := (oracle.outcome (num + i)).stderrS,
             returncode := (oracle.outcome (num + i)).returncode } := by
  induction tiles with
  | nil => intro num kwargs i h; exact absurd h (by simp)
  | cons t rest ih =>
    intro num kwargs i h
    cases i with
    | zero => simp [queuedJobs]
    | succ i2 =>
      have h2 : i2 < rest.length := by simpa using h
      have hrec := ih (num + 1)
        (setA ("area") t (setA ("new_mapset") (jobName module num uid) kwargs)) i2 h2
      have hcoll := setA_pair_collapse (α := String)
        (show ("area" : String) ≠ "new_mapset" from by decide)
        (rest.get ⟨i2, h2⟩) (jobName module (num + 1 + i2) uid) t (jobName module num uid) kwargs
      have harith : num + 1 + i2 = num + (i2 + 1) := by omega
      rw [show (queuedJobs oracle module uid num kwargs (t :: rest))[i2 + 1]? =
          (queuedJobs oracle module uid (num + 1)
            (setA ("area") t (setA ("new_mapset") (jobName module num uid) kwargs)) rest)[i2]?
        from by simp [queuedJobs]]
      rw [hrec, hcoll, harith]
      simp

/-- C4 (amended): for a tile list of length n, run_module_parallel builds for
the i-th tile (0-based, in input order) a job whose workspace name is
`tmp_{operation with every "." replaced by "_"}_{i}_{run_id}` (the source
sanitises the module name before embedding it, so the name is not the literal
`tmp_{operation}_{i}_{run_id}` of the claim whenever the operation contains a
dot), with parameters equal to the base mapping extended/overwritten with
`new_mapset` (that workspace name) and `area` (the tile); on success it
returns the n workspace names in submission order together with the location
path. -/
theorem c4_job_construction (oracle : DispatchOracle) (module : String)
    (kwargs : List (String × String)) (tiles : List String) (nprocs : ℕ) (uid : String)
    (st : GrassState)
    (hok : ∀ i, i < tiles.length → (oracle.outcome i).returncode = 0)
    (henv : (oracle.envAfterWait st.env).mapset = st.env.mapset) :
    (∃ st4, run_module_parallel oracle module kwargs tiles nprocs uid true st =
      Except.ok (((List.range tiles.length).map (fun i => jobName module i uid),
        (oracle.envAfterWait st.env).gisdbase ++ "/" ++ (oracle.envAfterWait st.env).location),
        loopKwargs module uid 0 kwargs tiles, st4))
    ∧ (dispatchLoop oracle module uid true 0 kwargs tiles st).queued.length = tiles.length
    ∧ (∀ (i : ℕ) (h : i < tiles.length),
        (dispatchLoop oracle module uid true 0 kwargs tiles st).queued[i]? =
          some { moduleName := module,
                 kwargs := setA ("area") (tiles.get ⟨i, h⟩)
                   (setA ("new_mapset") (jobName module i uid) kwargs),
                 stderrS := (oracle.outcome i).stderrS,
                 returncode := (oracle.outcome i).returncode }) := by
  refine ⟨run_module_parallel_ok oracle module kwargs tiles nprocs uid true st hok henv, ?_, ?_⟩
  · rw [dispatchLoop_queued]
    exact queuedJobs_length oracle module uid tiles 0 kwargs
  · intro i h
    rw [dispatchLoop_queued]
    have := queuedJobs_getElem oracle module uid tiles 0 kwargs i h
    simpa using this

/-- C4 counterexample: for the dotted operation name "v.mymod" the workspace
name actually constructed is "tmp_v_mymod_0_u1", which differs from the
claim's literal `tmp_{operation}_{i}_{run_id}` = "tmp_v.mymod_0_u1". -/
theorem c4_counterexample :
    (match run_module_parallel oracleQuiet ("v.mymod") [] ["t0"] 1 ("u1") true stSmall with
      | Except.ok ((names, _), _, _) => names
      | Except.error _ => []) = ["tmp_v_mymod_0_u1"]
    ∧ ("tmp_v_mymod_0_u1" : String) ≠
        "tmp_" ++ "v.mymod" ++ "_" ++ toString (0 : ℕ) ++ "_" ++ "u1" := by
  decide

/-- Witness for C4 at a concrete two-tile run. -/
theorem c4_witness :
    (∀ i, i < (["a", "b"] : List String).length → (oracleQuiet.outcome i).returncode = 0)
    ∧ (∃ st4, run_module_parallel oracleQuiet ("v.mymod") [] ["a", "b"] 2 ("u1") true stSmall =
        Except.ok (((List.range (["a", "b"] : List String).length).map
            (fun i => jobName ("v.mymod") i ("u1")),
          (oracleQuiet.envAfterWait stSmall.env).gisdbase ++ "/"
            ++ (oracleQuiet.envAfterWait stSmall.env).location),
          loopKwargs ("v.mymod") ("u1") 0 [] ["a", "b"], st4)) :=
  ⟨fun i _ => rfl,
    (c4_job_construction oracleQuiet ("v.mymod") [] ["a", "b"] 2 ("u1") stSmall
      (fun i _ => rfl) rfl).1⟩

theorem gRegionToVector_ok {fails : String → Bool} {area : Option String} {stA : GrassState}
    {u : Unit} {stB : GrassState} (h : gRegionToVector fails area stA = Except.ok (u, stB)) :
    stB.savedRegions = stA.savedRegions ∧ stB.vectors = stA.vectors ∧ stB.env = stA.env := by
  cases area with
  | none =>
    simp only [gRegionToVector, Except.ok.injEq, Prod.mk.injEq] at h
    rw [← h.2]
    exact ⟨rfl, rfl, rfl⟩
  | some a =>
    rw [gRegionToVector] at h
    have h2 := runGrassCmd_ok h
    subst h2
    exact ⟨rfl, rfl, rfl⟩

theorem buildWorkingGrid_ok {fails : String → Bool} {ts : ℤ} {grid : String} {dns dew : ℤ}
    {st : GrassState} {u : Unit} {st1 : GrassState}
    (h : buildWorkingGrid fails ts grid dns dew st = Except.ok (u, st1)) :
    st1.savedRegions = st.savedRegions ∧ st1.env = st.env := by
  unfold buildWorkingGrid at h
  split at h
  · split at h
    · simp at h
    · rename_i u1 s1 heq
      have e1 := runGrassCmd_ok heq
      have e2 := runGrassCmd_ok h
      subst e1 e2
      exact ⟨rfl, rfl⟩
  · split at h
    · simp at h
    · rename_i u1 s1 heq
      have e1 := runGrassCmd_ok heq
      have e2 := runGrassCmd_ok h
      subst e1 e2
      exact ⟨rfl, rfl⟩

theorem reset_region_ok_restores {fails : String → Bool} {name : String} {st : GrassState}
    {u : Unit} {st1 : GrassState} {r : Region} (hname : (name != "") = true)
    (hr : lookupA name st.savedRegions = some r)
    (h : reset_region fails name st = Except.ok (u, st1)) :
    st1.region = r ∧ st1.vectors = st.vectors ∧ st1.env = st.env := by
  unfold reset_region at h
  rw [if_pos (by simp [hname, findRegionFile, hr])] at h
  split at h
  · simp at h
  · rename_i u1 s1 heq
    have e1 := runGrassCmd_ok heq
    have e2 := runGrassCmd_ok h
    subst e1 e2
    refine ⟨?_, rfl, rfl⟩
    simp [pushEvent, hr]

theorem reset_region_ok_pres {fails : String → Bool} {name : String} {st : GrassState}
    {u : Unit} {st1 : GrassState} (h : reset_region fails name st = Except.ok (u, st1)) :
    st1.vectors = st.vectors ∧ st1.env = st.env := by
  unfold reset_region at h
  split at h
  · split at h
    · simp at h
    · rename_i u1 s1 heq
      have e1 := runGrassCmd_ok heq
      have e2 := runGrassCmd_ok h
      subst e1 e2
      exact ⟨rfl, rfl⟩
  · simp only [Except.ok.injEq, Prod.mk.injEq] at h
    rw [← h.2]
    exact ⟨rfl, rfl⟩

theorem clipGridToArea_ok {fails : String → Bool} {sid grid : String} {area : Option String}
    {st : GrassState} {gn : String} {st1 : GrassState}
    (h : clipGridToArea fails sid grid area st = Except.ok (gn, st1)) :
    st1.region = st.region ∧ st1.savedRegions = st.savedRegions ∧ st1.env = st.env := by
  cases area with
  | none =>
    simp only [clipGridToArea, Except.ok.injEq, Prod.mk.injEq] at h
    rw [← h.2]
    exact ⟨rfl, rfl, rfl⟩
  | some a =>
    rw [clipGridToArea] at h
    split at h
    · simp at h
    · rename_i u1 s1 heq
      have e1 := runGrassCmd_ok heq
      split at h
      · simp only [Except.ok.injEq, Prod.mk.injEq] at h
        rw [← h.2]
        subst e1
        refine ⟨?_, ?_, ?_⟩ <;> (dsimp only; split <;> rfl)
      · simp at h

theorem vDbSelectCats_ok {fails : String → Bool} {gn : String} {st : GrassState}
    {cats : List ℕ} {st1 : GrassState} (h : vDbSelectCats fails gn st = Except.ok (cats, st1)) :
    st1.region = st.region ∧ st1.savedRegions = st.savedRegions ∧ st1.vectors = st.vectors
    ∧ st1.env = st.env := by
  unfold vDbSelectCats at h
  dsimp only at h
  split at h
  · simp at h
  · simp only [Except.ok.injEq, Prod.mk.injEq] at h
    rw [← h.2]
    exact ⟨rfl, rfl, rfl, rfl⟩

theorem extractTilesLoop_ok_pres {fails : String → Bool} {gn gp : String} :
    ∀ {cats : List ℕ} {st : GrassState} {tiles : List String} {st1 : GrassState},
    extractTilesLoop fails gn gp cats st = Except.ok (tiles, st1) →
    st1.region = st.region ∧ st1.savedRegions = st.savedRegions ∧ st1.env = st.env := by
  intro cats
  induction cats with
  | nil =>
    intro st tiles st1 h
    simp only [extractTilesLoop, Except.ok.injEq, Prod.mk.injEq] at h
    rw [← h.2]
    exact ⟨rfl, rfl, rfl⟩
  | cons c rest ih =>
    intro st tiles st1 h
    rw [extractTilesLoop] at h
    split at h
    · simp at h
    · rename_i u1 s1 heq
      have e1 := runGrassCmd_ok heq
      split at h
      · simp at h
      · rename_i tl2 s2 heq2
        have hrec := ih heq2
        simp only [Except.ok.injEq, Prod.mk.injEq] at h
        rw [← h.2]
        subst e1
        simpa [pushEvent] using hrec

theorem rm_vects_ok_pres {fails : String → Bool} :
    ∀ {vects : List String} {st : GrassState} {u : Unit} {st1 : GrassState},
    rm_vects fails vects st = Except.ok (u, st1) →
    st1.region = st.region ∧ st1.savedRegions = st.savedRegions ∧ st1.env = st.env := by
  intro vects
  induction vects with
  | nil =>
    intro st u st1 h
    simp only [rm_vects, Except.ok.injEq, Prod.mk.injEq] at h
    rw [← h.2]
    exact ⟨rfl, rfl, rfl⟩
  | cons v rest ih =>
    intro st u st1 h
    rw [rm_vects] at h
    split at h
    · split at h
      · simp at h
      · rename_i u1 s1 heq
        have e1 := runGrassCmd_ok heq
        have hrec := ih h
        subst e1
        simpa [pushEvent] using hrec
    · exact ih h

theorem grid_region_name_ne (sid : String) : (("grid_region_" ++ sid) != "") = true := by
  have hlen := String.length_append ("grid_region_") sid
  have hne : ("grid_region_" ++ sid) ≠ "" := by
    intro hcontra
    rw [hcontra] at hlen
    have h0 : ("" : String).length = 0 := by decide
    have h12 : ("grid_region_" : String).length = 12 := by decide
    omega
  simpa [bne_iff_ne] using hne

/-- C1 (amended): when `create_grid` returns successfully the ambient current
region is restored bit-for-bit to its pre-call value (and the clip-failure
fatal can only occur after the restore has already happened); but on a path
where a command before the restore point fails — region set-up, `v.in.region`,
`v.db.addtable`, `v.mkgrid` — the exception propagates without any restore,
so the region may be left altered (see the counterexample). -/
theorem c1_region_restored_on_success (fails : String → Bool) (tile_size : ℤ)
    ( grid_prefix : String) (sid : String) (area : Option String) (st0 : GrassState) :
    ∀ (tiles : List String) (st1 : GrassState),
    create_grid fails tile_size grid_prefix sid area st0 = Except.ok (tiles, st1) →
    st1.region = st0.region := by
  intro tiles st1 h
  unfold create_grid at h
  dsimp only at h
  split at h
  · simp at h
  rename_i u0 stA heqA
  split at h
  · simp at h
  rename_i u1 stB heqB
  split at h
  · simp at h
  rename_i u2 stD heqC
  split at h
  · simp at h
  rename_i u3 stE heqD
  split at h
  · simp at h
  rename_i gn stF heqE
  split at h
  · simp at h
  rename_i cats stG heqF
  split at h
  · simp at h
  rename_i tl stI heqG
  split at h
  · simp at h
  rename_i u4 stJ heqH
  simp only [Except.ok.injEq, Prod.mk.injEq] at h
  have eA := runGrassCmd_ok heqA
  have hBsaved := (gRegionToVector_ok heqB).1
  have hCD := buildWorkingGrid_ok heqC
  have hrD : lookupA ("grid_region_" ++ sid) stD.savedRegions = some st0.region := by
    rw [hCD.1]
    simp only [pushEvent_savedRegions]
    rw [hBsaved]
    rw [eA]
    simp only [pushEvent_savedRegions]
    exact lookupA_setA_self _ _ _
  have hres := reset_region_ok_restores (grid_region_name_ne sid) hrD heqD
  have hE := clipGridToArea_ok heqE
  have hF := vDbSelectCats_ok heqF
  have hG := extractTilesLoop_ok_pres heqG
  have hH := rm_vects_ok_pres heqH
  rw [← h.2, hH.1, hG.1]
  simp only [pushEvent_region]
  rw [hF.1, hE.1, hres.1]

/-- C1 counterexample: with the 10×10 region and tile size 3 the builder takes
the subdivision path, `g.region res=3 -a` rewrites the ambient region, and a
failing `v.mkgrid` propagates before `reset_region` runs: the call ends in an
error with the ambient region left altered, not restored. -/
theorem c1_counterexample :
    (match create_grid failsMkgrid 3 ("p") ("s1") none stWide with
      | Except.ok _ => false
      | Except.error (GErr.cmdFail n, _) => n == "v.mkgrid"
      | Except.error _ => false) = true
    ∧ finalRegion rgnWide (create_grid failsMkgrid 3 ("p") ("s1") none stWide) ≠
        stWide.region := by
  decide

/-- Witness for C1 at a concrete successful degenerate run. -/
theorem c1_witness :
    (match create_grid noFail 10 ("p") ("s1") none stSmall with
      | Except.ok _ => true
      | Except.error _ => false) = true
    ∧ finalRegion rgnSmall (create_grid noFail 10 ("p") ("s1") none stSmall) =
        stSmall.region := by
  constructor
  · decide
  · cases hh : create_grid noFail 10 ("p") ("s1") none stSmall with
    | ok p =>
      have hr := c1_region_restored_on_success noFail 10 ("p") ("s1") none stSmall p.1 p.2
        (by rw [hh])
      simpa [finalRegion] using hr
    | error p =>
      have hok : (match create_grid noFail 10 ("p") ("s1") none stSmall with
          | Except.ok _ => true
          | Except.error _ => false) = true := by decide
      rw [hh] at hok
      simp at hok

/-- C7: on success, `create_grid` returns only the ordered list of extracted
tile names — its value type is a bare list.  The tile count is computed and
surfaced solely in the "Number of tiles is: ..." message, and the `return
tiles_list` at the end of the function never packages it, contradicting the
function's own docstring ("Return: ... list ..., number_tiles (int)") and the
spec's pair-returning contract.  Evaluated here at a concrete successful
call. -/
theorem c7_returns_only_tile_list :
    okValue (create_grid noFail 10 ("p") ("s1") none stSmall) = some ["p_1"]
    ∧ Event.msg ("Number of tiles is: 1") ∈
        finalTrace (create_grid noFail 10 ("p") ("s1") none stSmall) := by
  decide

theorem tmp_grid_names_ne (sid : String) : ("tmp_grid_" ++ sid) ≠ ("tmp_grid_area_" ++ sid) := by
  intro h
  have h1 := String.length_append ("tmp_grid_") sid
  have h2 := String.length_append ("tmp_grid_area_") sid
  rw [h] at h1
  have e1 : ("tmp_grid_" : String).length = 9 := by decide
  have e2 : ("tmp_grid_area_" : String).length = 14 := by decide
  omega

theorem gRegionToVector_noFail_some {a : String} {vm : VectorMap} {st : GrassState}
    (hvm : lookupA a st.vectors = some vm) :
    gRegionToVector noFail (some a) st =
      Except.ok ((), { st with
        region := regionFromVector st.region vm,
        trace := st.trace ++ [Event.cmd ("g.region") [("vector", a)]] }) := by
  rw [gRegionToVector]
  rw [runGrassCmd_noFail_pre (by simp [findVectorFile, hvm])]
  simp [pushEvent, hvm]

theorem buildWorkingGrid_noFail_degenerate {ts : ℤ} {grid : String} {dns dew : ℤ}
    {st : GrassState} (hcond : dns ≤ ts ∧ dew ≤ ts)
    (hfresh : lookupA grid st.vectors = none) :
    buildWorkingGrid noFail ts grid dns dew st =
      Except.ok ((), { st with
        vectors := setA grid { cells := singleCellOf st.region } st.vectors,
        trace := st.trace ++ [Event.cmd ("v.in.region") [("output", grid)],
          Event.cmd ("v.db.addtable") [("map", grid), ("columns", "cat int")]] }) := by
  unfold buildWorkingGrid
  rw [if_pos hcond]
  rw [runGrassCmd_noFail_pre (by simp [findVectorFile, hfresh])]
  dsimp only
  rw [runGrassCmd_noFail_pre (by simp [findVectorFile])]
  simp [pushEvent]

theorem buildWorkingGrid_noFail_mkgrid {ts : ℤ} {grid : String} {dns dew : ℤ}
    {st : GrassState} (hcond : ¬(dns ≤ ts ∧ dew ≤ ts))
    (hfresh : lookupA grid st.vectors = none) :
    buildWorkingGrid noFail ts grid dns dew st =
      Except.ok ((), { st with
        region := alignRegion st.region ts,
        vectors := setA grid { cells := mkgridCells (alignRegion st.region ts) ts } st.vectors,
        trace := st.trace ++ [Event.cmd ("g.region") [("res", toString ts), ("flags", "a")],
          Event.cmd ("v.mkgrid")
            [("map", grid), ("box", toString ts ++ "," ++ toString ts)]] }) := by
  unfold buildWorkingGrid
  rw [if_neg hcond]
  rw [runGrassCmd_noFail_pre (by simp)]
  dsimp only
  rw [runGrassCmd_noFail_pre (by simp [findVectorFile, hfresh])]
  simp [pushEvent]

theorem reset_region_noFail {name : String} {st : GrassState} {r : Region}
    (hname : (name != "") = true) (hr : lookupA name st.savedRegions = some r) :
    reset_region noFail name st =
      Except.ok ((), { st with
        region := r,
        savedRegions := removeA name st.savedRegions,
        trace := st.trace ++ [Event.cmd ("g.region") [("region", name)],
          Event.cmd ("g.remove") [("type", "region"), ("name", name), ("flags", "f")]] }) := by
  unfold reset_region
  rw [if_pos (by simp [hname, findRegionFile, hr])]
  rw [runGrassCmd_noFail_pre (by simp)]
  dsimp only
  rw [runGrassCmd_noFail_pre (by simp)]
  simp [pushEvent, hr]

theorem vDbSelectCats_noFail {gn : String} {st : GrassState} {vm : VectorMap}
    (h : lookupA gn st.vectors = some vm) :
    vDbSelectCats noFail gn st = Except.ok (vm.cells.map (fun cl => cl.cat),
      pushEvent (Event.cmd ("v.db.select")
        [("map", gn), ("columns", "cat"), ("flags", "c")]) st) := by
  unfold vDbSelectCats
  dsimp only
  rw [if_neg (by simp [noFail, findVectorFile, h])]
  simp [h]

theorem extractTilesLoop_noFail_one {gn gp : String} {c : ℕ} {st : GrassState} {vm : VectorMap}
    (h : lookupA gn st.vectors = some vm) :
    extractTilesLoop noFail gn gp [c] st = Except.ok ([gp ++ "_" ++ toString c],
      { st with
        vectors := setA (gp ++ "_" ++ toString c)
          { cells := vm.cells.filter (fun cl => cl.cat == c) } st.vectors,
        trace := st.trace ++ [Event.cmd ("v.extract")
          [("input", gn), ("where", "cat == " ++ toString c),
           ("output", gp ++ "_" ++ toString c), ("overwrite", "True")]] }) := by
  rw [extractTilesLoop]
  rw [runGrassCmd_noFail_pre (by simp [findVectorFile, h])]
  dsimp only
  rw [extractTilesLoop]
  simp [pushEvent, h]

theorem lookupA_setA_isSome {α : Type} {g : String} {l : List (String × α)} (k : String) (v : α)
    (h : (lookupA g l).isSome = true) : (lookupA g (setA k v l)).isSome = true := by
  by_cases hk : g = k
  · subst hk
    simp
  · rw [lookupA_setA_ne hk]
    exact h

theorem list_isEmpty_iff {α : Type} (l : List α) : l.isEmpty = true ↔ l = [] := by
  cases l <;> simp

theorem clipGridToArea_noFail_some_empty {sid grid a : String} {st : GrassState}
    {gvm vma : VectorMap} (hgridname : grid = "tmp_grid_" ++ sid)
    (hg : lookupA grid st.vectors = some gvm) (ha : lookupA a st.vectors = some vma)
    (hga : lookupA ("tmp_grid_area_" ++ sid) st.vectors = none)
    (hsel : selectOverlap gvm.cells vma = []) :
    clipGridToArea noFail sid grid (some a) st =
      Except.error (GErr.fatalMsg (regionMismatchMsg a),
        { st with trace := st.trace ++ [Event.cmd ("v.select")
          [("ainput", grid), ("binput", a), ("output", "tmp_grid_area_" ++ sid),
           ("operator", "overlap")]] }) := by
  rw [clipGridToArea]
  rw [runGrassCmd_noFail_pre (by simp [findVectorFile, hg, ha, hga])]
  dsimp only
  simp only [pushEvent_vectors, hg, ha, Option.getD_some]
  rw [if_pos (show (selectOverlap gvm.cells vma).isEmpty = true from by
    rw [list_isEmpty_iff]; exact hsel)]
  simp [findVectorFile, hga, pushEvent]

theorem clipGridToArea_noFail_some_nonempty {sid grid a : String} {st : GrassState}
    {gvm vma : VectorMap} (hgridname : grid = "tmp_grid_" ++ sid)
    (hg : lookupA grid st.vectors = some gvm) (ha : lookupA a st.vectors = some vma)
    (hga : lookupA ("tmp_grid_area_" ++ sid) st.vectors = none)
    (hsel : selectOverlap gvm.cells vma ≠ []) :
    clipGridToArea noFail sid grid (some a) st =
      Except.ok (("tmp_grid_area_" ++ sid),
        { st with
          vectors := setA ("tmp_grid_area_" ++ sid)
            { cells := selectOverlap gvm.cells vma } st.vectors,
          trace := st.trace ++ [Event.cmd ("v.select")
            [("ainput", grid), ("binput", a), ("output", "tmp_grid_area_" ++ sid),
             ("operator", "overlap")]] }) := by
  rw [clipGridToArea]
  rw [runGrassCmd_noFail_pre (by simp [findVectorFile, hg, ha, hga])]
  dsimp only
  simp only [pushEvent_vectors, hg, ha, Option.getD_some]
  rw [if_neg (show ¬((selectOverlap gvm.cells vma).isEmpty = true) from by
    rw [list_isEmpty_iff]; exact hsel)]
  simp [findVectorFile, pushEvent]

theorem rm_vects_noFail_ok (vects : List String) : ∀ (st : GrassState),
    ∃ st', rm_vects noFail vects st = Except.ok ((), st')
    ∧ (∀ k, k ∉ vects → lookupA k st'.vectors = lookupA k st.vectors)
    ∧ st'.region = st.region
    ∧ (∃ tail, st'.trace = st.trace ++ tail
        ∧ ∀ ev ∈ tail, ∃ args, ev = Event.cmd ("g.remove") args) := by
  induction vects with
  | nil =>
    intro st
    refine ⟨st, by rw [rm_vects], fun k _ => rfl, rfl, [], by simp, by simp⟩
  | cons v rest ih =>
    intro st
    by_cases hv : findVectorFile v st = true
    · obtain ⟨st', hok, hlk, hreg, tail, htr, hevs⟩ := ih (GrassState.mk st.region
        st.savedRegions (removeA v st.vectors) st.env (st.trace ++ [Event.cmd ("g.remove")
        [("type", "vector"), ("name", v), ("flags", "f")]]))
      refine ⟨st', ?_, ?_, ?_, ?_⟩
      · rw [rm_vects]
        rw [if_pos hv]
        rw [runGrassCmd_noFail_pre (by simp)]
        dsimp only
        exact hok
      · intro k hk
        have hk1 : k ≠ v := fun hcontra => hk (by simp [hcontra])
        have hk2 : k ∉ rest := fun hcontra => hk (by simp [hcontra])
        rw [hlk k hk2]
        dsimp only
        exact lookupA_removeA_ne hk1 st.vectors
      · rw [hreg]
      · refine ⟨Event.cmd ("g.remove") [("type", "vector"), ("name", v), ("flags", "f")] :: tail,
          ?_, ?_⟩
        · rw [htr]
          dsimp only
          simp
        · intro ev hev
          rcases List.mem_cons.mp hev with hcase | hcase
          · exact ⟨_, hcase⟩
          · exact hevs ev hcase
    · obtain ⟨st', hok, hlk, hreg, tail, htr, hevs⟩ := ih st
      refine ⟨st', ?_, ?_, hreg, ⟨tail, htr, hevs⟩⟩
      · rw [rm_vects]
        rw [if_neg hv]
        exact hok
      · intro k hk
        exact hlk k (fun hcontra => hk (by simp [hcontra]))

theorem extractTilesLoop_noFail_ok (gn gp : String) (cats : List ℕ) : ∀ (st : GrassState),
    (lookupA gn st.vectors).isSome = true →
    ∃ tiles st', extractTilesLoop noFail gn gp cats st = Except.ok (tiles, st')
    ∧ (lookupA gn st'.vectors).isSome = true := by
  induction cats with
  | nil =>
    intro st hg
    exact ⟨[], st, by rw [extractTilesLoop], hg⟩
  | cons c rest ih =>
    intro st hg
    obtain ⟨vm, hvm⟩ := Option.isSome_iff_exists.mp hg
    obtain ⟨tiles, st', hok, hg2⟩ := ih (GrassState.mk st.region st.savedRegions
      (setA (gp ++ "_" ++ toString c) { cells := vm.cells.filter (fun cl => cl.cat == c) }
        st.vectors)
      st.env (st.trace ++ [Event.cmd ("v.extract") [("input", gn),
        ("where", "cat == " ++ toString c), ("output", gp ++ "_" ++ toString c),
        ("overwrite", "True")]]))
      (by apply lookupA_setA_isSome; simp [hvm])
    refine ⟨(gp ++ "_" ++ toString c) :: tiles, st', ?_, hg2⟩
    rw [extractTilesLoop]
    rw [runGrassCmd_noFail_pre (by simp [findVectorFile, hvm])]
    dsimp only
    simp only [pushEvent_vectors, pushEvent_region, pushEvent_savedRegions, pushEvent_env,
      pushEvent_trace, hvm, Option.getD_some]
    rw [hok]

theorem runGrassCmd_error {fails : String → Bool} {name : String}
    {args : List (String × String)} {pre : GrassState → Bool} {eff : GrassState → GrassState}
    {st : GrassState} {e : GErr} {stE : GrassState}
    (h : runGrassCmd fails name args pre eff st = Except.error (e, stE)) :
    e = GErr.cmdFail name := by
  unfold runGrassCmd at h
  dsimp only at h
  split at h
  · simp only [Except.error.injEq, Prod.mk.injEq] at h
    exact h.1.symm
  · simp at h

theorem extractTilesLoop_error {fails : String → Bool} {gn gp : String} :
    ∀ {cats : List ℕ} {st : GrassState} {e : GErr} {stE : GrassState},
    extractTilesLoop fails gn gp cats st = Except.error (e, stE) →
    ∃ n, e = GErr.cmdFail n := by
  intro cats
  induction cats with
  | nil =>
    intro st e stE h
    simp [extractTilesLoop] at h
  | cons c rest ih =>
    intro st e stE h
    rw [extractTilesLoop] at h
    split at h
    · rename_i e2 heq
      simp only [Except.error.injEq] at h
      rw [h] at heq
      exact ⟨_, runGrassCmd_error heq⟩
    · split at h
      · rename_i e2 heq
        simp only [Except.error.injEq] at h
        rw [h] at heq
        exact ih heq
      · simp at h

theorem rm_vects_error {fails : String → Bool} :
    ∀ {vects : List String} {st : GrassState} {e : GErr} {stE : GrassState},
    rm_vects fails vects st = Except.error (e, stE) → ∃ n, e = GErr.cmdFail n := by
  intro vects
  induction vects with
  | nil =>
    intro st e stE h
    simp [rm_vects] at h
  | cons v rest ih =>
    intro st e stE h
    rw [rm_vects] at h
    split at h
    · split at h
      · rename_i e2 heq
        simp only [Except.error.injEq] at h
        rw [h] at heq
        exact ⟨_, runGrassCmd_error heq⟩
      · exact ih h
    · exact ih h

theorem vDbSelectCats_error {fails : String → Bool} {gn : String} {st : GrassState} {e : GErr}
    {stE : GrassState} (h : vDbSelectCats fails gn st = Except.error (e, stE)) :
    e = GErr.cmdFail ("v.db.select") := by
  unfold vDbSelectCats at h
  dsimp only at h
  split at h
  · simp only [Except.error.injEq, Prod.mk.injEq] at h
    exact h.1.symm
  · simp at h

/-- C6: with an area given (and fresh intermediate names), `create_grid`
under an otherwise failure-free run raises the fatal RegionMismatch error
exactly when the clip of the working grid to the features overlapping `area`
is empty; when the clip is non-empty no such error is raised (the call can
then only end in a command failure, never this fatal). -/
theorem c6_region_mismatch_iff (tile_size : ℤ) ( grid_prefix sid a : String)
    (st : GrassState) (vm : VectorMap) (hvm : lookupA a st.vectors = some vm)
    (hgrid : lookupA ("tmp_grid_" ++ sid) st.vectors = none)
    (hga : lookupA ("tmp_grid_area_" ++ sid) st.vectors = none) :
    (∃ stE, create_grid noFail tile_size grid_prefix sid (some a) st =
        Except.error (GErr.fatalMsg (regionMismatchMsg a), stE)) ↔
      selectOverlap (builtGridCells (workRegionOf st (some a)) tile_size) vm = [] := by
  have hag : a ≠ "tmp_grid_" ++ sid := by
    intro hcontra
    rw [hcontra] at hvm
    rw [hvm] at hgrid
    simp at hgrid
  have hgane : ("tmp_grid_area_" ++ sid) ≠ ("tmp_grid_" ++ sid) :=
    fun h => tmp_grid_names_ne sid h.symm
  have hwork : workRegionOf st (some a) = regionFromVector st.region vm := by
    simp [workRegionOf, hvm]
  rw [hwork]
  by_cases hcond : iabs ((regionFromVector st.region vm).n -
        (regionFromVector st.region vm).s) ≤ tile_size
      ∧ iabs ((regionFromVector st.region vm).w - (regionFromVector st.region vm).e) ≤ tile_size
  · rw [show builtGridCells (regionFromVector st.region vm) tile_size =
        singleCellOf (regionFromVector st.region vm) from by
      rw [builtGridCells, if_pos hcond]]
    simp only [create_grid]
    rw [runGrassCmd_noFail_pre rfl]
    dsimp only
    simp only [pushEvent_region, pushEvent_savedRegions, pushEvent_vectors, pushEvent_env,
      pushEvent_trace]
    rw [gRegionToVector_noFail_some (show lookupA a (GrassState.mk st.region
      (setA ("grid_region_" ++ sid) st.region st.savedRegions) st.vectors st.env
      (st.trace ++ [Event.cmd ("g.region") [("save", "grid_region_" ++ sid)]])).vectors
      = some vm from hvm)]
    dsimp only
    set stB := GrassState.mk (regionFromVector st.region vm)
      (setA ("grid_region_" ++ sid) st.region st.savedRegions) st.vectors st.env
      (st.trace ++ [Event.cmd ("g.region") [("save", "grid_region_" ++ sid)]] ++
        [Event.cmd ("g.region") [("vector", a)]]) with hstB
    rw [buildWorkingGrid_noFail_degenerate hcond (show lookupA ("tmp_grid_" ++ sid)
      (pushEvent (Event.msg ("Creating tiles...")) stB).vectors = none from hgrid)]
    dsimp only
    simp only [pushEvent_region, pushEvent_savedRegions, pushEvent_vectors, pushEvent_env,
      pushEvent_trace]
    set stD := GrassState.mk stB.region stB.savedRegions
      (setA ("tmp_grid_" ++ sid) { cells := singleCellOf stB.region } stB.vectors) stB.env
      (stB.trace ++ [Event.msg ("Creating tiles...")] ++
        [Event.cmd ("v.in.region") [("output", "tmp_grid_" ++ sid)],
         Event.cmd ("v.db.addtable") [("map", "tmp_grid_" ++ sid), ("columns", "cat int")]])
      with hstD
    rw [reset_region_noFail (grid_region_name_ne sid)
      (show lookupA ("grid_region_" ++ sid) stD.savedRegions = some st.region from
        lookupA_setA_self _ _ _)]
    dsimp only
    by_cases hsel : selectOverlap (singleCellOf (regionFromVector st.region vm)) vm = []
    · rw [clipGridToArea_noFail_some_empty rfl (lookupA_setA_self _ _ _)
        ((lookupA_setA_ne hag _ _).trans hvm) ((lookupA_setA_ne hgane _ _).trans hga) hsel]
      dsimp only
      exact iff_of_true ⟨_, rfl⟩ hsel
    · rw [clipGridToArea_noFail_some_nonempty rfl (lookupA_setA_self _ _ _)
        ((lookupA_setA_ne hag _ _).trans hvm) ((lookupA_setA_ne hgane _ _).trans hga) hsel]
      dsimp only
      refine iff_of_false ?_ hsel
      rintro ⟨stE, hcontra⟩
      split at hcontra
      · rename_i e2 heq
        simp only [Except.error.injEq] at hcontra
        rw [hcontra] at heq
        have hn := vDbSelectCats_error heq
        simp at hn
      · split at hcontra
        · rename_i e2 heq
          simp only [Except.error.injEq] at hcontra
          rw [hcontra] at heq
          obtain ⟨n, hn⟩ := extractTilesLoop_error heq
          simp at hn
        · split at hcontra
          · rename_i e2 heq
            simp only [Except.error.injEq] at hcontra
            rw [hcontra] at heq
            obtain ⟨n, hn⟩ := rm_vects_error heq
            simp at hn
          · simp at hcontra
  · rw [show builtGridCells (regionFromVector st.region vm) tile_size =
        mkgridCells (alignRegion (regionFromVector st.region vm) tile_size) tile_size from by
      rw [builtGridCells, if_neg hcond]]
    simp only [create_grid]
    rw [runGrassCmd_noFail_pre rfl]
    dsimp only
    simp only [pushEvent_region, pushEvent_savedRegions, pushEvent_vectors, pushEvent_env,
      pushEvent_trace]
    rw [gRegionToVector_noFail_some (show lookupA a (GrassState.mk st.region
      (setA ("grid_region_" ++ sid) st.region st.savedRegions) st.vectors st.env
      (st.trace ++ [Event.cmd ("g.region") [("save", "grid_region_" ++ sid)]])).vectors
      = some vm from hvm)]
    dsimp only
    set stB := GrassState.mk (regionFromVector st.region vm)
      (setA ("grid_region_" ++ sid) st.region st.savedRegions) st.vectors st.env
      (st.trace ++ [Event.cmd ("g.region") [("save", "grid_region_" ++ sid)]] ++
        [Event.cmd ("g.region") [("vector", a)]]) with hstB
    rw [buildWorkingGrid_noFail_mkgrid hcond (show lookupA ("tmp_grid_" ++ sid)
      (pushEvent (Event.msg ("Creating tiles...")) stB).vectors = none from hgrid)]
    dsimp only
    simp only [pushEvent_region, pushEvent_savedRegions, pushEvent_vectors, pushEvent_env,
      pushEvent_trace]
    set stD := GrassState.mk (alignRegion stB.region tile_size) stB.savedRegions
      (setA ("tmp_grid_" ++ sid)
        { cells := mkgridCells (alignRegion stB.region tile_size) tile_size } stB.vectors)
      stB.env
      (stB.trace ++ [Event.msg ("Creating tiles...")] ++
        [Event.cmd ("g.region") [("res", toString tile_size), ("flags", "a")],
         Event.cmd ("v.mkgrid") [("map", "tmp_grid_" ++ sid),
           ("box", toString tile_size ++ "," ++ toString tile_size)]])
      with hstD
    rw [reset_region_noFail (grid_region_name_ne sid)
      (show lookupA ("grid_region_" ++ sid) stD.savedRegions = some st.region from
        lookupA_setA_self _ _ _)]
    dsimp only
    by_cases hsel : selectOverlap
        (mkgridCells (alignRegion (regionFromVector st.region vm) tile_size) tile_size) vm = []
    · rw [clipGridToArea_noFail_some_empty rfl (lookupA_setA_self _ _ _)
        ((lookupA_setA_ne hag _ _).trans hvm) ((lookupA_setA_ne hgane _ _).trans hga) hsel]
      dsimp only
      exact iff_of_true ⟨_, rfl⟩ hsel
    · rw [clipGridToArea_noFail_some_nonempty rfl (lookupA_setA_self _ _ _)
        ((lookupA_setA_ne hag _ _).trans hvm) ((lookupA_setA_ne hgane _ _).trans hga) hsel]
      dsimp only
      refine iff_of_false ?_ hsel
      rintro ⟨stE, hcontra⟩
      split at hcontra
      · rename_i e2 heq
        simp only [Except.error.injEq] at hcontra
        rw [hcontra] at heq
        have hn := vDbSelectCats_error heq
        simp at hn
      · split at hcontra
        · rename_i e2 heq
          simp only [Except.error.injEq] at hcontra
          rw [hcontra] at heq
          obtain ⟨n, hn⟩ := extractTilesLoop_error heq
          simp at hn
        · split at hcontra
          · rename_i e2 heq
            simp only [Except.error.injEq] at hcontra
            rw [hcontra] at heq
            obtain ⟨n, hn⟩ := rm_vects_error heq
            simp at hn
          · simp at hcontra

theorem imin_le_left (a b : ℤ) : imin a b ≤ a := by
  unfold imin
  split <;> omega

theorem le_imax_left (a b : ℤ) : a ≤ imax a b := by
  unfold imax
  split <;> omega

theorem foldl_rectUnion_bounds (cs : List Cell) : ∀ acc : Rect,
    (cs.foldl (fun a c2 => rectUnion a c2.rect) acc).w ≤ acc.w
    ∧ acc.e ≤ (cs.foldl (fun a c2 => rectUnion a c2.rect) acc).e
    ∧ (cs.foldl (fun a c2 => rectUnion a c2.rect) acc).s ≤ acc.s
    ∧ acc.n ≤ (cs.foldl (fun a c2 => rectUnion a c2.rect) acc).n := by
  induction cs with
  | nil => intro acc; exact ⟨le_refl _, le_refl _, le_refl _, le_refl _⟩
  | cons c rest ih =>
    intro acc
    have hu := ih (rectUnion acc c.rect)
    have h1 : (rectUnion acc c.rect).w ≤ acc.w := imin_le_left _ _
    have h2 : acc.e ≤ (rectUnion acc c.rect).e := le_imax_left _ _
    have h3 : (rectUnion acc c.rect).s ≤ acc.s := imin_le_left _ _
    have h4 : acc.n ≤ (rectUnion acc c.rect).n := le_imax_left _ _
    exact ⟨le_trans hu.1 h1, le_trans h2 hu.2.1, le_trans hu.2.2.1 h3,
      le_trans h4 hu.2.2.2⟩

theorem singleCell_overlaps_area {r : Region} {vm : VectorMap} (hne : vm.cells ≠ [])
    (hwf : ∀ c ∈ vm.cells, c.rect.w ≤ c.rect.e ∧ c.rect.s ≤ c.rect.n) :
    cellOverlapsMap { cat := 1, rect := rectOfRegion (regionFromVector r vm) } vm = true := by
  rcases hcells : vm.cells with _ | ⟨c, cs⟩
  · exact absurd hcells hne
  · have hwfc := hwf c (by rw [hcells]; simp)
    have hb := foldl_rectUnion_bounds cs c.rect
    unfold cellOverlapsMap
    rw [hcells]
    have hov : rectOverlapB
        (rectOfRegion (regionFromVector r vm)) c.rect = true := by
      unfold regionFromVector bboxCells
      rw [hcells]
      dsimp only
      unfold rectOverlapB rectOfRegion regionWithBounds
      dsimp only
      simp only [decide_eq_true_eq]
      refine ⟨le_trans hb.1 (le_trans hwfc.1 (le_refl _)), ?_, ?_, ?_⟩
      · exact le_trans hwfc.1 hb.2.1
      · exact le_trans hb.2.2.1 hwfc.2
      · exact le_trans hwfc.2 hb.2.2.2
    simp [List.any_cons, hov]

theorem rm_vects_noFail_two {g1 g2 : String} {st : GrassState}
    (h1 : findVectorFile g1 st = true)
    (h2 : (lookupA g2 (removeA g1 st.vectors)).isSome = true) :
    rm_vects noFail [g1, g2] st = Except.ok ((), { st with
      vectors := removeA g2 (removeA g1 st.vectors),
      trace := st.trace ++
        [Event.cmd ("g.remove") [("type", "vector"), ("name", g1), ("flags", "f")],
         Event.cmd ("g.remove") [("type", "vector"), ("name", g2), ("flags", "f")]] }) := by
  rw [rm_vects]
  rw [if_pos h1]
  rw [runGrassCmd_noFail_pre (by simp)]
  dsimp only
  rw [rm_vects]
  rw [if_pos (by simpa [findVectorFile] using h2)]
  rw [runGrassCmd_noFail_pre (by simp)]
  dsimp only
  rw [rm_vects]
  simp [pushEvent]

theorem rm_vects_noFail_dup {g : String} {st : GrassState}
    (h1 : findVectorFile g st = true) :
    rm_vects noFail [g, g] st = Except.ok ((), { st with
      vectors := removeA g st.vectors,
      trace := st.trace ++
        [Event.cmd ("g.remove") [("type", "vector"), ("name", g), ("flags", "f")]] }) := by
  rw [rm_vects]
  rw [if_pos h1]
  rw [runGrassCmd_noFail_pre (by simp)]
  dsimp only
  rw [rm_vects]
  rw [if_neg (by simp [findVectorFile])]
  rw [rm_vects]
  simp [pushEvent]

/-- C2: when both extents of the working region (the bounding extent of `area`
when an area is given, else the current region) are at most `tile_size`,
`create_grid` succeeds with exactly one tile `{grid_prefix}_1` whose extent
equals the whole working region, and the general subdivision path (`v.mkgrid`)
is never invoked. -/
theorem c2_degenerate_single_tile (tile_size : ℤ) ( grid_prefix sid : String)
    (area : Option String) (st : GrassState)
    (hgrid : lookupA ("tmp_grid_" ++ sid) st.vectors = none)
    (hga : lookupA ("tmp_grid_area_" ++ sid) st.vectors = none)
    (htile1 : grid_prefix ++ "_" ++ toString (1 : ℕ) ≠ "tmp_grid_" ++ sid)
    (htile2 : grid_prefix ++ "_" ++ toString (1 : ℕ) ≠ "tmp_grid_area_" ++ sid)
    (harea : ∀ a, area = some a → ∃ vm, lookupA a st.vectors = some vm ∧ vm.cells ≠ [] ∧
        ∀ c ∈ vm.cells, c.rect.w ≤ c.rect.e ∧ c.rect.s ≤ c.rect.n)
    (hns : iabs ((workRegionOf st area).n - (workRegionOf st area).s) ≤ tile_size)
    (hew : iabs ((workRegionOf st area).w - (workRegionOf st area).e) ≤ tile_size) :
    ∃ st', create_grid noFail tile_size grid_prefix sid area st =
        Except.ok ([ grid_prefix ++ "_" ++ toString (1 : ℕ)], st')
      ∧ lookupA ( grid_prefix ++ "_" ++ toString (1 : ℕ)) st'.vectors =
          some { cells := [{ cat := 1, rect := rectOfRegion (workRegionOf st area) }] }
      ∧ (∃ tail, st'.trace = st.trace ++ tail
          ∧ ∀ args, Event.cmd ("v.mkgrid") args ∉ tail) := by
  cases area with
  | none =>
    simp only [workRegionOf] at hns hew ⊢
    simp only [create_grid]
    rw [runGrassCmd_noFail_pre rfl]
    dsimp only
    simp only [pushEvent_region, pushEvent_savedRegions, pushEvent_vectors, pushEvent_env,
      pushEvent_trace]
    rw [show gRegionToVector noFail none (GrassState.mk st.region
      (setA ("grid_region_" ++ sid) st.region st.savedRegions) st.vectors st.env
      (st.trace ++ [Event.cmd ("g.region") [("save", "grid_region_" ++ sid)]])) =
      Except.ok ((), GrassState.mk st.region
        (setA ("grid_region_" ++ sid) st.region st.savedRegions) st.vectors st.env
        (st.trace ++ [Event.cmd ("g.region") [("save", "grid_region_" ++ sid)]])) from rfl]
    dsimp only
    set stB := GrassState.mk st.region
      (setA ("grid_region_" ++ sid) st.region st.savedRegions) st.vectors st.env
      (st.trace ++ [Event.cmd ("g.region") [("save", "grid_region_" ++ sid)]]) with hstB
    rw [buildWorkingGrid_noFail_degenerate ⟨hns, hew⟩ (show lookupA ("tmp_grid_" ++ sid)
      (pushEvent (Event.msg ("Creating tiles...")) stB).vectors = none from hgrid)]
    dsimp only
    simp only [pushEvent_region, pushEvent_savedRegions, pushEvent_vectors, pushEvent_env,
      pushEvent_trace]
    set stD := GrassState.mk stB.region stB.savedRegions
      (setA ("tmp_grid_" ++ sid) { cells := singleCellOf stB.region } stB.vectors) stB.env
      (stB.trace ++ [Event.msg ("Creating tiles...")] ++
        [Event.cmd ("v.in.region") [("output", "tmp_grid_" ++ sid)],
         Event.cmd ("v.db.addtable") [("map", "tmp_grid_" ++ sid), ("columns", "cat int")]])
      with hstD
    rw [reset_region_noFail (grid_region_name_ne sid)
      (show lookupA ("grid_region_" ++ sid) stD.savedRegions = some st.region from
        lookupA_setA_self _ _ _)]
    dsimp only
    rw [show clipGridToArea noFail sid ("tmp_grid_" ++ sid) none (GrassState.mk st.region
      (removeA ("grid_region_" ++ sid) (setA ("grid_region_" ++ sid) st.region st.savedRegions))
      (setA ("tmp_grid_" ++ sid) { cells := singleCellOf st.region } st.vectors) st.env
      (st.trace ++ [Event.cmd ("g.region") [("save", "grid_region_" ++ sid)]] ++
        [Event.msg ("Creating tiles...")] ++
        [Event.cmd ("v.in.region") [("output", "tmp_grid_" ++ sid)],
         Event.cmd ("v.db.addtable") [("map", "tmp_grid_" ++ sid), ("columns", "cat int")]] ++
        [Event.cmd ("g.region") [("region", "grid_region_" ++ sid)],
         Event.cmd ("g.remove") [("type", "region"), ("name", "grid_region_" ++ sid),
           ("flags", "f")]])) =
      Except.ok (("tmp_grid_" ++ sid), GrassState.mk st.region
        (removeA ("grid_region_" ++ sid) (setA ("grid_region_" ++ sid) st.region st.savedRegions))
        (setA ("tmp_grid_" ++ sid) { cells := singleCellOf st.region } st.vectors) st.env
        (st.trace ++ [Event.cmd ("g.region") [("save", "grid_region_" ++ sid)]] ++
          [Event.msg ("Creating tiles...")] ++
          [Event.cmd ("v.in.region") [("output", "tmp_grid_" ++ sid)],
           Event.cmd ("v.db.addtable") [("map", "tmp_grid_" ++ sid), ("columns", "cat int")]] ++
          [Event.cmd ("g.region") [("region", "grid_region_" ++ sid)],
           Event.cmd ("g.remove") [("type", "region"), ("name", "grid_region_" ++ sid),
             ("flags", "f")]])) from rfl]
    dsimp only
    rw [vDbSelectCats_noFail (show lookupA ("tmp_grid_" ++ sid)
      (setA ("tmp_grid_" ++ sid) { cells := singleCellOf st.region } st.vectors) =
        some { cells := singleCellOf st.region } from lookupA_setA_self _ _ _)]
    simp only [singleCellOf, List.map_cons, List.map_nil, List.length_cons, List.length_nil,
      pushEvent_region, pushEvent_savedRegions, pushEvent_vectors, pushEvent_env,
      pushEvent_trace]
    rw [extractTilesLoop_noFail_one (show lookupA ("tmp_grid_" ++ sid) _ =
      some { cells := [{ cat := 1, rect := rectOfRegion st.region }] } from by
        simp only [pushEvent_vectors]; exact lookupA_setA_self _ _ _)]
    dsimp only
    simp only [List.filter, beq_self_eq_true, pushEvent_region, pushEvent_savedRegions,
      pushEvent_vectors, pushEvent_env, pushEvent_trace]
    rw [rm_vects_noFail_dup (show findVectorFile ("tmp_grid_" ++ sid) _ = true from by
      simp only [findVectorFile]
      rw [lookupA_setA_ne (Ne.symm htile1)]
      simp)]
    dsimp only
    refine ⟨_, rfl, ?_, ?_⟩
    · rw [lookupA_removeA_ne htile1]
      exact lookupA_setA_self _ _ _
    · refine ⟨[Event.cmd ("g.region") [("save", "grid_region_" ++ sid)],
        Event.msg ("Creating tiles..."),
        Event.cmd ("v.in.region") [("output", "tmp_grid_" ++ sid)],
        Event.cmd ("v.db.addtable") [("map", "tmp_grid_" ++ sid), ("columns", "cat int")],
        Event.cmd ("g.region") [("region", "grid_region_" ++ sid)],
        Event.cmd ("g.remove") [("type", "region"), ("name", "grid_region_" ++ sid),
          ("flags", "f")],
        Event.cmd ("v.db.select") [("map", "tmp_grid_" ++ sid), ("columns", "cat"),
          ("flags", "c")],
        Event.msg ("Number of tiles is: " ++ toString (0 + 1)),
        Event.cmd ("v.extract") [("input", "tmp_grid_" ++ sid),
          ("where", "cat == " ++ toString 1),
          ("output", grid_prefix ++ "_" ++ toString 1), ("overwrite", "True")],
        Event.cmd ("g.remove") [("type", "vector"), ("name", "tmp_grid_" ++ sid),
          ("flags", "f")]], by simp, ?_⟩
      intro args
      simp
  | some a =>
    obtain ⟨vm, hvm, hvne, hwf⟩ := harea a rfl
    have hag : a ≠ "tmp_grid_" ++ sid := by
      intro hcontra
      rw [hcontra] at hvm
      rw [hvm] at hgrid
      simp at hgrid
    have hgane : ("tmp_grid_area_" ++ sid) ≠ ("tmp_grid_" ++ sid) :=
      fun h => tmp_grid_names_ne sid h.symm
    have hwork : workRegionOf st (some a) = regionFromVector st.region vm := by
      simp [workRegionOf, hvm]
    rw [hwork] at hns hew ⊢
    have hselEq : selectOverlap (singleCellOf (regionFromVector st.region vm)) vm =
        [{ cat := 1, rect := rectOfRegion (regionFromVector st.region vm) }] := by
      simp [selectOverlap, singleCellOf, singleCell_overlaps_area hvne hwf]
    have hsel : selectOverlap (singleCellOf (regionFromVector st.region vm)) vm ≠ [] := by
      rw [hselEq]
      simp
    simp only [create_grid]
    rw [runGrassCmd_noFail_pre rfl]
    dsimp only
    simp only [pushEvent_region, pushEvent_savedRegions, pushEvent_vectors, pushEvent_env,
      pushEvent_trace]
    rw [gRegionToVector_noFail_some (show lookupA a (GrassState.mk st.region
      (setA ("grid_region_" ++ sid) st.region st.savedRegions) st.vectors st.env
      (st.trace ++ [Event.cmd ("g.region") [("save", "grid_region_" ++ sid)]])).vectors
      = some vm from hvm)]
    dsimp only
    set stB := GrassState.mk (regionFromVector st.region vm)
      (setA ("grid_region_" ++ sid) st.region st.savedRegions) st.vectors st.env
      (st.trace ++ [Event.cmd ("g.region") [("save", "grid_region_" ++ sid)]] ++
        [Event.cmd ("g.region") [("vector", a)]]) with hstB
    rw [buildWorkingGrid_noFail_degenerate ⟨hns, hew⟩ (show lookupA ("tmp_grid_" ++ sid)
      (pushEvent (Event.msg ("Creating tiles...")) stB).vectors = none from hgrid)]
    dsimp only
    simp only [pushEvent_region, pushEvent_savedRegions, pushEvent_vectors, pushEvent_env,
      pushEvent_trace]
    set stD := GrassState.mk stB.region stB.savedRegions
      (setA ("tmp_grid_" ++ sid) { cells := singleCellOf stB.region } stB.vectors) stB.env
      (stB.trace ++ [Event.msg ("Creating tiles...")] ++
        [Event.cmd ("v.in.region") [("output", "tmp_grid_" ++ sid)],
         Event.cmd ("v.db.addtable") [("map", "tmp_grid_" ++ sid), ("columns", "cat int")]])
      with hstD
    rw [reset_region_noFail (grid_region_name_ne sid)
      (show lookupA ("grid_region_" ++ sid) stD.savedRegions = some st.region from
        lookupA_setA_self _ _ _)]
    dsimp only
    rw [clipGridToArea_noFail_some_nonempty rfl (lookupA_setA_self _ _ _)
      ((lookupA_setA_ne hag _ _).trans hvm) ((lookupA_setA_ne hgane _ _).trans hga) hsel]
    dsimp only
    rw [show selectOverlap [{ cat := 1, rect := rectOfRegion (regionFromVector st.region vm) }]
        vm = [{ cat := 1, rect := rectOfRegion (regionFromVector st.region vm) }] from by
      simpa [singleCellOf] using hselEq]
    rw [vDbSelectCats_noFail (show lookupA ("tmp_grid_area_" ++ sid)
      (setA ("tmp_grid_area_" ++ sid)
        { cells := [{ cat := 1, rect := rectOfRegion (regionFromVector st.region vm) }] }
        (setA ("tmp_grid_" ++ sid) { cells := singleCellOf (regionFromVector st.region vm) }
          st.vectors)) =
      some { cells := [{ cat := 1, rect := rectOfRegion (regionFromVector st.region vm) }] }
      from lookupA_setA_self _ _ _)]
    simp only [List.map_cons, List.map_nil, List.length_cons, List.length_nil,
      pushEvent_region, pushEvent_savedRegions, pushEvent_vectors, pushEvent_env,
      pushEvent_trace]
    rw [extractTilesLoop_noFail_one (show lookupA ("tmp_grid_area_" ++ sid) _ =
      some { cells := [{ cat := 1, rect := rectOfRegion (regionFromVector st.region vm) }] }
      from by simp only [pushEvent_vectors]; exact lookupA_setA_self _ _ _)]
    dsimp only
    simp only [List.filter, beq_self_eq_true, pushEvent_region, pushEvent_savedRegions,
      pushEvent_vectors, pushEvent_env, pushEvent_trace]
    rw [rm_vects_noFail_two (show findVectorFile ("tmp_grid_" ++ sid) _ = true from by
        simp only [findVectorFile]
        rw [lookupA_setA_ne (Ne.symm htile1), lookupA_setA_ne (tmp_grid_names_ne sid)]
        simp)
      (show (lookupA ("tmp_grid_area_" ++ sid) (removeA ("tmp_grid_" ++ sid) _)).isSome = true
        from by
        rw [lookupA_removeA_ne hgane, lookupA_setA_ne (Ne.symm htile2)]
        simp)]
    dsimp only
    refine ⟨_, rfl, ?_, ?_⟩
    · rw [lookupA_removeA_ne htile2, lookupA_removeA_ne htile1]
      exact lookupA_setA_self _ _ _
    · refine ⟨[Event.cmd ("g.region") [("save", "grid_region_" ++ sid)],
        Event.cmd ("g.region") [("vector", a)],
        Event.msg ("Creating tiles..."),
        Event.cmd ("v.in.region") [("output", "tmp_grid_" ++ sid)],
        Event.cmd ("v.db.addtable") [("map", "tmp_grid_" ++ sid), ("columns", "cat int")],
        Event.cmd ("g.region") [("region", "grid_region_" ++ sid)],
        Event.cmd ("g.remove") [("type", "region"), ("name", "grid_region_" ++ sid),
          ("flags", "f")],
        Event.cmd ("v.select") [("ainput", "tmp_grid_" ++ sid), ("binput", a),
          ("output", "tmp_grid_area_" ++ sid), ("operator", "overlap")],
        Event.cmd ("v.db.select") [("map", "tmp_grid_area_" ++ sid), ("columns", "cat"),
          ("flags", "c")],
        Event.msg ("Number of tiles is: " ++ toString (0 + 1)),
        Event.cmd ("v.extract") [("input", "tmp_grid_area_" ++ sid),
          ("where", "cat == " ++ toString 1),
          ("output", grid_prefix ++ "_" ++ toString 1), ("overwrite", "True")],
        Event.cmd ("g.remove") [("type", "vector"), ("name", "tmp_grid_" ++ sid),
          ("flags", "f")],
        Event.cmd ("g.remove") [("type", "vector"), ("name", "tmp_grid_area_" ++ sid),
          ("flags", "f")]], by simp, ?_⟩
      intro args
      simp

theorem c2_witness :
    ∃ st', create_grid noFail 5 ("p") ("s1") none stSmall =
        Except.ok (["p" ++ "_" ++ toString (1 : ℕ)], st')
      ∧ lookupA ("p" ++ "_" ++ toString (1 : ℕ)) st'.vectors =
          some { cells := [{ cat := 1, rect := rectOfRegion (workRegionOf stSmall none) }] }
      ∧ (∃ tail, st'.trace = stSmall.trace ++ tail
          ∧ ∀ args, Event.cmd ("v.mkgrid") args ∉ tail) :=
  c2_degenerate_single_tile 5 ("p") ("s1") none stSmall (by decide) (by decide) (by decide)
    (by decide) (fun a ha => by cases ha) (by decide) (by decide)

theorem c6_witness :
    ∃ stE, create_grid noFail 5 ("p") ("s1") (some ("aoi")) stC6 =
      Except.error (GErr.fatalMsg (regionMismatchMsg ("aoi")), stE) :=
  (c6_region_mismatch_iff 5 ("p") ("s1") ("aoi") stC6 vmEmpty (by decide) (by decide)
    (by decide)).mpr (by decide)
